import Mathlib

/-!
# Verification of the xrpl-tx-codec field/type serialization engine

A shallow embedding, in Lean 4, of the Rust crates `xrpl-codec` and
`xrpl-codec-utils` (repository `futureversecom/xrpl-tx-codec`), together with
theorems settling the specification claims about the engine.

Modelling conventions:

* Bytes are `Nat`s; every produced byte is reduced `% 256` where the Rust
  source performs an `as u8` cast or a `u8` push.
* Rust machine-integer arithmetic is modelled with release-profile
  (two's-complement wrapping) semantics, written as explicit `% 2^w`
  reductions on `Nat`/`Int`.
* A Rust `panic!` is modelled by `Option`/`Except` failure (`none`).
* `Vec<u8>` buffers are `List Nat`; appending to the buffer is list append.
-/

/-- `ACCOUNT_ID_TYPE_CODE` from `codec/src/types.rs`. -/
def ACCOUNT_ID_TYPE_CODE : Nat := 8

/-- The field-header bytes emitted by
`<T: CodecField> BinarySerialize::binary_serialize_to` (`codec/src/field.rs`,
the `// header` block): one byte `(type_code << 4) | field_code` when both
codes are below 16, two bytes when exactly one is, three bytes
`0x00, type_code, field_code` when neither is.  Each pushed byte carries the
source's `as u8` cast, modelled as `% 256`. -/
def fieldHeaderBytes (tc fc : Nat) : List Nat :=
  if tc < 16 then
    if fc < 16 then
      [((tc <<< 4) ||| fc) % 256]
    else
      [(tc <<< 4) % 256, fc % 256]
  else if 16 ≤ tc ∧ fc < 16 then
    [fc % 256, tc % 256]
  else
    [0, tc % 256, fc % 256]

/-- The variable-length length-prefix bytes from the same function
(`codec/src/field.rs`, the `match data.len()` block), for a non-AccountID
type code.  `none` models the `panic!("data too long")` arm.  The three-byte
arm mirrors the source exactly: it subtracts `12_841` from the length (with
`usize` wrap-around, modelled as `% 2^64`), casts to `u32` (`% 2^32`), takes
the top three big-endian bytes of that `u32`, and adds `241` to the first
(a `u8` addition, modelled `% 256`). -/
def vlLengthBytes (len : Nat) : Option (List Nat) :=
  if len ≤ 192 then
    some [len]
  else if len ≤ 12480 then
    some [(len - 193) / 256 + 193, (len - 193) % 256]
  else if len ≤ 918744 then
    let v : Nat := (len + 2 ^ 64 - 12841) % 2 ^ 64 % 2 ^ 32
    some [(241 + v / 2 ^ 24 % 256) % 256, v / 2 ^ 16 % 256, v / 2 ^ 8 % 256]
  else
    none

/-- Field metadata, as produced for each field struct by the
`#[derive(Field)]` macro in `utils/src/lib.rs` from the bundled
`definitions.json`. -/
structure FieldMetadata where
  type_code : Nat
  field_code : Nat
  is_variable_length : Bool
  is_serialized : Bool
  is_signing_field : Bool
deriving DecidableEq, Repr

/-- `<T: CodecField> BinarySerialize::binary_serialize_to`
(`codec/src/field.rs`): emit nothing for a non-serialized field or, in
`for_signing` mode, for a non-signing field; otherwise emit the header, then
for variable-length fields a length prefix (always `0x14` for the AccountID
type code), then the inner payload bytes.  `none` models the panic of the
length-prefix match. -/
def binarySerializeField (meta : FieldMetadata) (inner : List Nat)
    (for_signing : Bool) : Option (List Nat) :=
  if !meta.is_serialized then
    some []
  else if for_signing && !meta.is_signing_field then
    some []
  else
    let header := fieldHeaderBytes meta.type_code meta.field_code
    if !meta.is_variable_length then
      some (header ++ inner)
    else if meta.type_code = ACCOUNT_ID_TYPE_CODE then
      some (header ++ [0x14] ++ inner)
    else
      (vlLengthBytes inner.length).map fun p => header ++ p ++ inner

/-- Big-endian bytes of a `u16` (`u16::to_be_bytes` in `codec/src/traits.rs`). -/
def u16be (v : Nat) : List Nat :=
  [v / 2 ^ 8 % 256, v % 256]

/-- Big-endian bytes of a `u32` (`u32::to_be_bytes` in `codec/src/traits.rs`). -/
def u32be (v : Nat) : List Nat :=
  [v / 2 ^ 24 % 256, v / 2 ^ 16 % 256, v / 2 ^ 8 % 256, v % 256]

/-- Big-endian bytes of a `u64` (`u64::to_be_bytes` in `codec/src/traits.rs`). -/
def u64be (v : Nat) : List Nat :=
  [v / 2 ^ 56 % 256, v / 2 ^ 48 % 256, v / 2 ^ 40 % 256, v / 2 ^ 32 % 256,
   v / 2 ^ 24 % 256, v / 2 ^ 16 % 256, v / 2 ^ 8 % 256, v % 256]

/-- The crate error type (`codec/src/error.rs`).  The `String` payloads carry
the human-readable message (the embedding keeps only the static text). -/
inductive Error where
  | OutOfRange (msg : String)
  | InvalidData (msg : String)
deriving DecidableEq, Repr

/-- `CurrencyCode` (`codec/src/types.rs`): a `Standard` 3-byte mnemonic or a
`NonStandard` 20-byte raw code. -/
inductive CurrencyCode where
  | Standard (code : List Nat)
  | NonStandard (code : List Nat)
deriving DecidableEq, Repr

/-- `CurrencyCode::is_valid` (`codec/src/types.rs`): a `Standard` code is
valid iff it differs from `b"XRP"` (`0x58 0x52 0x50`); a `NonStandard` code
is valid iff its first byte is not `0x00`. -/
def CurrencyCode.is_valid : CurrencyCode → Bool
  | .Standard value => !(value == [0x58, 0x52, 0x50])
  | .NonStandard value => value.getD 0 0 != 0

/-- `CurrencyCode`'s `BinarySerialize` impl (`codec/src/types.rs`):
`NonStandard` emits its 20 raw bytes; `Standard` emits 12 zero bytes, the
3-byte code, then 5 zero bytes. -/
def CurrencyCode.binarySerialize : CurrencyCode → List Nat
  | .NonStandard payload => payload
  | .Standard payload => List.replicate 12 0 ++ payload ++ List.replicate 5 0

/-- `IssuedValue` (`codec/src/types.rs`): signed mantissa (an `i64` in the
source) and exponent (an `i8`). -/
structure IssuedValue where
  mantissa : Int
  exponent : Int
deriving DecidableEq, Repr

/-- `IssuedValue::zero`. -/
def IssuedValue.zero : IssuedValue := ⟨0, 0⟩

/-- `MANTISSA_MIN` from `IssuedValue::normalize`. -/
def MANTISSA_MIN : Nat := 1000000000000000

/-- `MANTISSA_MAX` from `IssuedValue::normalize`. -/
def MANTISSA_MAX : Nat := 9999999999999999

/-- `EXPONENT_MIN` from `IssuedValue::normalize`. -/
def EXPONENT_MIN : Int := -96

/-- `EXPONENT_MAX` from `IssuedValue::normalize`. -/
def EXPONENT_MAX : Int := 80

/-- The first `while` loop of `IssuedValue::normalize`:
`while mantissa < MANTISSA_MIN && exponent > EXPONENT_MIN { mantissa *= 10; exponent -= 1; }`.
The mantissa is positive there (the sign was split off beforehand), so it is
carried as a `Nat`.  The loop body runs at most `exponent - EXPONENT_MIN`
times, so the structural `fuel` parameter (always called with `normFuel`,
which exceeds that bound for every `i8` exponent) never exhausts; on
exhaustion the current state is returned. -/
def normLoop1 : Nat → Nat × Int → Nat × Int
  | 0, s => s
  | fuel + 1, (mantissa, exponent) =>
    if mantissa < MANTISSA_MIN ∧ EXPONENT_MIN < exponent then
      normLoop1 fuel (mantissa * 10, exponent - 1)
    else
      (mantissa, exponent)

/-- The second `while` loop of `IssuedValue::normalize`:
`while mantissa > MANTISSA_MAX && exponent < EXPONENT_MAX { mantissa /= 10; exponent += 1; }`.
Division of the positive mantissa truncates, as Rust `i64` division does on
positive operands. -/
def normLoop2 : Nat → Nat × Int → Nat × Int
  | 0, s => s
  | fuel + 1, (mantissa, exponent) =>
    if MANTISSA_MAX < mantissa ∧ exponent < EXPONENT_MAX then
      normLoop2 fuel (mantissa / 10, exponent + 1)
    else
      (mantissa, exponent)

/-- Loop fuel: both loops of `normalize` run at most `127 + 96 < 400` /
`80 + 128 < 400` times for `i64`/`i8` inputs. -/
def normFuel : Nat := 400

/-- `IssuedValue::normalize` (`codec/src/types.rs`): split off the sign
(`i64::MIN` cannot be negated and fails with `OutOfRange`), run the two
scaling loops, then fail with `OutOfRange` if still above the mantissa or
exponent maximum, round to the canonical zero if below the mantissa or
exponent minimum, and otherwise re-attach the sign. -/
def IssuedValue.normalize (v : IssuedValue) : Except Error IssuedValue :=
  if v.mantissa = 0 then
    .ok IssuedValue.zero
  else if v.mantissa = -(2 ^ 63) then
    .error (.OutOfRange "Specified mantissa cannot be i64 MIN")
  else
    let negative := v.mantissa < 0
    let s := normLoop2 normFuel (normLoop1 normFuel (v.mantissa.natAbs, v.exponent))
    if MANTISSA_MAX < s.1 ∨ EXPONENT_MAX < s.2 then
      .error (.OutOfRange "Issued value too big to be normalized")
    else if s.1 < MANTISSA_MIN ∨ s.2 < EXPONENT_MIN then
      .ok IssuedValue.zero
    else
      .ok ⟨if negative then -(s.1 : Int) else (s.1 : Int), s.2⟩

/-- `IssuedValue::from_mantissa_exponent` (`codec/src/types.rs`). -/
def IssuedValue.from_mantissa_exponent (mantissa exponent : Int) : Except Error IssuedValue :=
  IssuedValue.normalize ⟨mantissa, exponent⟩

/-- `ISSUED_MASK` from `IssuedValue`'s `BinarySerialize` impl. -/
def ISSUED_MASK : Nat := 0x8000000000000000

/-- `POSITIVE_MASK` from `IssuedValue`'s and `AmountType`'s
`BinarySerialize` impls. -/
def POSITIVE_MASK : Nat := 0x4000000000000000

/-- `IssuedValue`'s `BinarySerialize` impl (`codec/src/types.rs`): zero
encodes as just the issued mask; otherwise
`ISSUED_MASK | positive-mask | mantissa | (exponent + 97) << 54` over `u64`.
The source computes `self.exponent + 97` in `i8` arithmetic and casts the
result to `u64`; both are modelled with release-profile wrapping. -/
def IssuedValue.binarySerialize (v : IssuedValue) : List Nat :=
  if v.mantissa = 0 then
    u64be ISSUED_MASK
  else
    let m : Nat := v.mantissa.natAbs
    let positive : Bool := 0 < v.mantissa
    let e8 : Int := (v.exponent + 97 + 128) % 256 - 128
    let exponent : Nat := (e8 % (2 ^ 64 : Int)).toNat
    u64be (ISSUED_MASK ||| (if positive then POSITIVE_MASK else 0) ||| m |||
      ((exponent <<< 54) % 2 ^ 64))

/-- `IssuedAmount` (`codec/src/types.rs`). -/
structure IssuedAmount where
  value : IssuedValue
  currency : CurrencyCode
  issuer : List Nat
deriving DecidableEq, Repr

/-- `IssuedAmount::from_issued_value` (`codec/src/types.rs`), exactly as
written in the source: it returns the `InvalidData` error when
`currency.is_valid()` holds and `Ok` otherwise. -/
def IssuedAmount.from_issued_value (value : IssuedValue) (currency : CurrencyCode)
    (issuer : List Nat) : Except Error IssuedAmount :=
  if currency.is_valid then
    .error (.InvalidData "Issued amount cannot have invalid currency code")
  else
    .ok ⟨value, currency, issuer⟩

/-- `IssuedAmount`'s `BinarySerialize` impl: value, then currency, then
issuer. -/
def IssuedAmount.binarySerialize (a : IssuedAmount) : List Nat :=
  a.value.binarySerialize ++ a.currency.binarySerialize ++ a.issuer

/-- `AmountType` (`codec/src/types.rs`). -/
inductive AmountType where
  | Issued (amount : IssuedAmount)
  | Drops (amount : Nat)
deriving DecidableEq, Repr

/-- `AmountType`'s `BinarySerialize` impl: issued amounts delegate;
drops emit `drops | POSITIVE_MASK` big-endian. -/
def AmountType.binarySerialize : AmountType → List Nat
  | .Issued issued_amount => issued_amount.binarySerialize
  | .Drops drops_amount => u64be (drops_amount ||| POSITIVE_MASK)

/-- `SignerEntryType` (`codec/src/types.rs`): an `Account` field and a
`SignerWeight` field. -/
structure SignerEntryType where
  account : List Nat
  weight : Nat
deriving DecidableEq, Repr

/-- A transaction field as collected by the `#[derive(Transaction)]` macro:
its metadata together with its inner payload serialization (a function of
`for_signing`, which every primitive of the library ignores except by
passing it through to nested field encodings). -/
abbrev FieldInst := FieldMetadata × (Bool → Option (List Nat))

/-- The canonical-order comparator generated by `#[derive(Transaction)]`
(`utils/src/lib.rs`): order by `field_code` first and break ties by
`type_code`.  `canonicalLe a b` holds when `a` sorts at or before `b`. -/
def canonicalLe (a b : FieldMetadata) : Bool :=
  decide (a.field_code < b.field_code) ||
    (decide (a.field_code = b.field_code) && decide (a.type_code ≤ b.type_code))

/-- Stable insertion of a field into a list sorted by `canonicalLe`. -/
def insertCanonical (x : FieldInst) : List FieldInst → List FieldInst
  | [] => [x]
  | y :: ys => if canonicalLe x.1 y.1 then x :: y :: ys else y :: insertCanonical x ys

/-- The sort performed by the generated `to_canonical_fields`
(`fields_.sort_by(...)` in `utils/src/lib.rs`): a stable sort by
`canonicalLe`, modelled as stable insertion sort (Rust's `sort_by` is
stable, and all key pairs occurring in this development are distinct, so any
stable sort with this comparator produces this list). -/
def sortCanonical : List FieldInst → List FieldInst
  | [] => []
  | x :: xs => insertCanonical x (sortCanonical xs)

/-- The generated `BinarySerialize` impl for a transaction
(`utils/src/lib.rs`): serialize each canonical field in order and
concatenate.  `none` propagates a field encoder's panic. -/
def serializeFields : List FieldInst → Bool → Option (List Nat)
  | [], _ => some []
  | f :: rest, for_signing => do
    let inner ← f.2 for_signing
    let bytes ← binarySerializeField f.1 inner for_signing
    let tail ← serializeFields rest for_signing
    pure (bytes ++ tail)

/-- Modelled from the spec: the external field-metadata source
(`definitions.json`, bundled in the repository at `utils/res/` but not part
of the core sources) maps each field name to
`(type_code, field_code, isVLEncoded, isSerialized, isSigningField)`.
The values below are the XRPL protocol constants; the ones for `Account`,
`SignerWeight`, `SignerEntry` and `SignerEntries` are corroborated by the
header bytes asserted in the repository's own tests
(`0x81`, `0x13`, `0xEB`, `0xF4`). -/
def AccountMeta : FieldMetadata := ⟨8, 1, true, true, true⟩

/-- Modelled from the spec: `definitions.json` metadata for `Destination`. -/
def DestinationMeta : FieldMetadata := ⟨8, 3, true, true, true⟩

/-- Modelled from the spec: `definitions.json` metadata for
`TransactionType`. -/
def TransactionTypeMeta : FieldMetadata := ⟨1, 2, false, true, true⟩

/-- Modelled from the spec: `definitions.json` metadata for `Fee`. -/
def FeeMeta : FieldMetadata := ⟨6, 8, false, true, true⟩

/-- Modelled from the spec: `definitions.json` metadata for `Flags`. -/
def FlagsMeta : FieldMetadata := ⟨2, 2, false, true, true⟩

/-- Modelled from the spec: `definitions.json` metadata for `Sequence`. -/
def SequenceMeta : FieldMetadata := ⟨2, 4, false, true, true⟩

/-- Modelled from the spec: `definitions.json` metadata for `SourceTag`. -/
def SourceTagMeta : FieldMetadata := ⟨2, 3, false, true, true⟩

/-- Modelled from the spec: `definitions.json` metadata for
`DestinationTag`. -/
def DestinationTagMeta : FieldMetadata := ⟨2, 14, false, true, true⟩

/-- Modelled from the spec: `definitions.json` metadata for
`TicketSequence`. -/
def TicketSequenceMeta : FieldMetadata := ⟨2, 41, false, true, true⟩

/-- Modelled from the spec: `definitions.json` metadata for
`SigningPubKey`. -/
def SigningPubKeyMeta : FieldMetadata := ⟨7, 3, true, true, true⟩

/-- Modelled from the spec: `definitions.json` metadata for `Amount`. -/
def AmountMeta : FieldMetadata := ⟨6, 1, false, true, true⟩

/-- Modelled from the spec: `definitions.json` metadata for `TxnSignature` —
the sole field with `isSigningField = false`. -/
def TxnSignatureMeta : FieldMetadata := ⟨7, 4, true, true, false⟩

/-- Modelled from the spec: `definitions.json` metadata for `SignerQuorum`. -/
def SignerQuorumMeta : FieldMetadata := ⟨2, 35, false, true, true⟩

/-- Modelled from the spec: `definitions.json` metadata for `SignerWeight`. -/
def SignerWeightMeta : FieldMetadata := ⟨1, 3, false, true, true⟩

/-- Modelled from the spec: `definitions.json` metadata for `SignerEntry`. -/
def SignerEntryMeta : FieldMetadata := ⟨14, 11, false, true, true⟩

/-- Modelled from the spec: `definitions.json` metadata for
`SignerEntries`. -/
def SignerEntriesMeta : FieldMetadata := ⟨15, 4, false, true, true⟩

/-- Modelled from the spec: `definitions.json` metadata for `NFTokenID`. -/
def NFTokenIDMeta : FieldMetadata := ⟨5, 10, false, true, true⟩

/-- `SignerEntryType`'s `BinarySerialize` impl (`codec/src/types.rs`): the
`SignerWeight` field, then the `Account` field (the canonical order), then
the object-end sentinel `0xE1`. -/
def SignerEntryType.binarySerialize (s : SignerEntryType) (for_signing : Bool) :
    Option (List Nat) := do
  let w ← binarySerializeField SignerWeightMeta (u16be s.weight) for_signing
  let a ← binarySerializeField AccountMeta s.account for_signing
  pure (w ++ a ++ [0xe1])

/-- The element loop of `STArrayType`'s `BinarySerialize` impl
(`codec/src/types.rs`) for `STArrayType<SignerEntry>`: each element is a
`SignerEntry` field (header `0xEB`) wrapping a `SignerEntryType`. -/
def signerEntryItemsSer : List SignerEntryType → Bool → Option (List Nat)
  | [], _ => some []
  | entry :: rest, for_signing => do
    let inner ← entry.binarySerialize for_signing
    let item ← binarySerializeField SignerEntryMeta inner for_signing
    let tail ← signerEntryItemsSer rest for_signing
    pure (item ++ tail)

/-- `STArrayType<SignerEntry>`'s `BinarySerialize` impl: the elements in the
order supplied, then the array-end sentinel `0xF1`. -/
def STArraySignerEntriesSer (l : List SignerEntryType) (for_signing : Bool) :
    Option (List Nat) :=
  (signerEntryItemsSer l for_signing).map (· ++ [0xf1])

/-- `Payment` (`codec/src/transaction.rs`), fields in struct declaration
order (the order the derive macro collects them in, before sorting). -/
structure Payment where
  account : List Nat
  transaction_type : Nat
  fee : AmountType
  sequence : Nat
  ticket_sequence : Nat
  flags : Nat
  amount : AmountType
  destination : List Nat
  signing_pub_key : List Nat
  txn_signature : List Nat
  source_tag : Nat

/-- The unsorted field list the `#[derive(Transaction)]` macro collects for
`Payment`, in struct declaration order. -/
def Payment.structFields (p : Payment) : List FieldInst :=
  [(AccountMeta, fun _ => some p.account),
   (TransactionTypeMeta, fun _ => some (u16be p.transaction_type)),
   (FeeMeta, fun _ => some p.fee.binarySerialize),
   (SequenceMeta, fun _ => some (u32be p.sequence)),
   (TicketSequenceMeta, fun _ => some (u32be p.ticket_sequence)),
   (FlagsMeta, fun _ => some (u32be p.flags)),
   (AmountMeta, fun _ => some p.amount.binarySerialize),
   (DestinationMeta, fun _ => some p.destination),
   (SigningPubKeyMeta, fun _ => some p.signing_pub_key),
   (TxnSignatureMeta, fun _ => some p.txn_signature),
   (SourceTagMeta, fun _ => some (u32be p.source_tag))]

/-- Generated `Payment::to_canonical_fields`. -/
def Payment.to_canonical_fields (p : Payment) : List FieldInst :=
  sortCanonical p.structFields

/-- Generated `BinarySerialize` impl for `Payment`. -/
def Payment.binary_serialize (p : Payment) (for_signing : Bool) : Option (List Nat) :=
  serializeFields p.to_canonical_fields for_signing

/-- `Payment::new` (`codec/src/transaction.rs`): transaction type code 0,
global signing flag `0x8000_0000`, empty signature, and the public key
defaulting to the empty blob when absent. -/
def Payment.new (account destination : List Nat) (amount : Nat) (nonce : Nat)
    (ticket_sequence : Nat) (fee : Nat) (source_tag : Nat)
    (signing_pub_key : Option (List Nat)) : Payment :=
  { account := account
    transaction_type := 0
    fee := .Drops fee
    sequence := nonce
    ticket_sequence := ticket_sequence
    flags := 0x80000000
    amount := .Drops amount
    destination := destination
    signing_pub_key := signing_pub_key.getD []
    txn_signature := []
    source_tag := source_tag }

/-- `PaymentWithDestinationTag` (`codec/src/transaction.rs`). -/
structure PaymentWithDestinationTag where
  account : List Nat
  transaction_type : Nat
  fee : AmountType
  sequence : Nat
  ticket_sequence : Nat
  flags : Nat
  amount : AmountType
  destination : List Nat
  signing_pub_key : List Nat
  txn_signature : List Nat
  source_tag : Nat
  destination_tag : Nat

/-- The unsorted field list for `PaymentWithDestinationTag`. -/
def PaymentWithDestinationTag.structFields (p : PaymentWithDestinationTag) :
    List FieldInst :=
  [(AccountMeta, fun _ => some p.account),
   (TransactionTypeMeta, fun _ => some (u16be p.transaction_type)),
   (FeeMeta, fun _ => some p.fee.binarySerialize),
   (SequenceMeta, fun _ => some (u32be p.sequence)),
   (TicketSequenceMeta, fun _ => some (u32be p.ticket_sequence)),
   (FlagsMeta, fun _ => some (u32be p.flags)),
   (AmountMeta, fun _ => some p.amount.binarySerialize),
   (DestinationMeta, fun _ => some p.destination),
   (SigningPubKeyMeta, fun _ => some p.signing_pub_key),
   (TxnSignatureMeta, fun _ => some p.txn_signature),
   (SourceTagMeta, fun _ => some (u32be p.source_tag)),
   (DestinationTagMeta, fun _ => some (u32be p.destination_tag))]

/-- Generated `PaymentWithDestinationTag::to_canonical_fields`. -/
def PaymentWithDestinationTag.to_canonical_fields (p : PaymentWithDestinationTag) :
    List FieldInst :=
  sortCanonical p.structFields

/-- Generated `BinarySerialize` impl for `PaymentWithDestinationTag`. -/
def PaymentWithDestinationTag.binary_serialize (p : PaymentWithDestinationTag)
    (for_signing : Bool) : Option (List Nat) :=
  serializeFields p.to_canonical_fields for_signing

/-- `PaymentWithDestinationTag::new`. -/
def PaymentWithDestinationTag.new (account destination : List Nat) (amount : Nat)
    (nonce : Nat) (ticket_sequence : Nat) (fee : Nat) (source_tag : Nat)
    (destination_tag : Nat) (signing_pub_key : Option (List Nat)) :
    PaymentWithDestinationTag :=
  { account := account
    transaction_type := 0
    fee := .Drops fee
    sequence := nonce
    ticket_sequence := ticket_sequence
    flags := 0x80000000
    amount := .Drops amount
    destination := destination
    signing_pub_key := signing_pub_key.getD []
    txn_signature := []
    source_tag := source_tag
    destination_tag := destination_tag }

/-- `PaymentAltCurrency` (`codec/src/transaction.rs`): same field layout as
`Payment`, but the amount is caller-supplied (possibly an issued amount). -/
structure PaymentAltCurrency where
  account : List Nat
  transaction_type : Nat
  fee : AmountType
  sequence : Nat
  ticket_sequence : Nat
  flags : Nat
  amount : AmountType
  destination : List Nat
  signing_pub_key : List Nat
  txn_signature : List Nat
  source_tag : Nat

/-- The unsorted field list for `PaymentAltCurrency`. -/
def PaymentAltCurrency.structFields (p : PaymentAltCurrency) : List FieldInst :=
  [(AccountMeta, fun _ => some p.account),
   (TransactionTypeMeta, fun _ => some (u16be p.transaction_type)),
   (FeeMeta, fun _ => some p.fee.binarySerialize),
   (SequenceMeta, fun _ => some (u32be p.sequence)),
   (TicketSequenceMeta, fun _ => some (u32be p.ticket_sequence)),
   (FlagsMeta, fun _ => some (u32be p.flags)),
   (AmountMeta, fun _ => some p.amount.binarySerialize),
   (DestinationMeta, fun _ => some p.destination),
   (SigningPubKeyMeta, fun _ => some p.signing_pub_key),
   (TxnSignatureMeta, fun _ => some p.txn_signature),
   (SourceTagMeta, fun _ => some (u32be p.source_tag))]

/-- Generated `PaymentAltCurrency::to_canonical_fields`. -/
def PaymentAltCurrency.to_canonical_fields (p : PaymentAltCurrency) : List FieldInst :=
  sortCanonical p.structFields

/-- Generated `BinarySerialize` impl for `PaymentAltCurrency`. -/
def PaymentAltCurrency.binary_serialize (p : PaymentAltCurrency)
    (for_signing : Bool) : Option (List Nat) :=
  serializeFields p.to_canonical_fields for_signing

/-- `PaymentAltCurrency::new`. -/
def PaymentAltCurrency.new (account destination : List Nat) (amount : AmountType)
    (nonce : Nat) (ticket_sequence : Nat) (fee : Nat) (source_tag : Nat)
    (signing_pub_key : Option (List Nat)) : PaymentAltCurrency :=
  { account := account
    transaction_type := 0
    fee := .Drops fee
    sequence := nonce
    ticket_sequence := ticket_sequence
    flags := 0x80000000
    amount := amount
    destination := destination
    signing_pub_key := signing_pub_key.getD []
    txn_signature := []
    source_tag := source_tag }

/-- `SignerListSet` (`codec/src/transaction.rs`). -/
structure SignerListSet where
  account : List Nat
  transaction_type : Nat
  fee : AmountType
  sequence : Nat
  ticket_sequence : Nat
  flags : Nat
  signer_quorum : Nat
  signer_entries : List SignerEntryType
  signing_pub_key : List Nat
  txn_signature : List Nat
  source_tag : Nat

/-- The unsorted field list for `SignerListSet`. -/
def SignerListSet.structFields (t : SignerListSet) : List FieldInst :=
  [(AccountMeta, fun _ => some t.account),
   (TransactionTypeMeta, fun _ => some (u16be t.transaction_type)),
   (FeeMeta, fun _ => some t.fee.binarySerialize),
   (SequenceMeta, fun _ => some (u32be t.sequence)),
   (TicketSequenceMeta, fun _ => some (u32be t.ticket_sequence)),
   (FlagsMeta, fun _ => some (u32be t.flags)),
   (SignerQuorumMeta, fun _ => some (u32be t.signer_quorum)),
   (SignerEntriesMeta, fun fs => STArraySignerEntriesSer t.signer_entries fs),
   (SigningPubKeyMeta, fun _ => some t.signing_pub_key),
   (TxnSignatureMeta, fun _ => some t.txn_signature),
   (SourceTagMeta, fun _ => some (u32be t.source_tag))]

/-- Generated `SignerListSet::to_canonical_fields`. -/
def SignerListSet.to_canonical_fields (t : SignerListSet) : List FieldInst :=
  sortCanonical t.structFields

/-- Generated `BinarySerialize` impl for `SignerListSet`. -/
def SignerListSet.binary_serialize (t : SignerListSet) (for_signing : Bool) :
    Option (List Nat) :=
  serializeFields t.to_canonical_fields for_signing

/-- `SignerListSet::new` (transaction type code 12). -/
def SignerListSet.new (account : List Nat) (fee : Nat) (nonce : Nat)
    (ticket_sequence : Nat) (signer_quorum : Nat)
    (signer_entries : List (List Nat × Nat)) (source_tag : Nat)
    (signing_pub_key : Option (List Nat)) : SignerListSet :=
  { account := account
    transaction_type := 12
    fee := .Drops fee
    sequence := nonce
    ticket_sequence := ticket_sequence
    flags := 0x80000000
    signer_quorum := signer_quorum
    signer_entries := signer_entries.map fun e => ⟨e.1, e.2⟩
    signing_pub_key := signing_pub_key.getD []
    txn_signature := []
    source_tag := source_tag }

/-- `NFTokenCreateOffer` (`codec/src/transaction.rs`). -/
structure NFTokenCreateOffer where
  account : List Nat
  transaction_type : Nat
  fee : AmountType
  sequence : Nat
  ticket_sequence : Nat
  flags : Nat
  source_tag : Nat
  amount : AmountType
  destination : List Nat
  nftoken_id : List Nat
  signing_pub_key : List Nat
  txn_signature : List Nat

/-- The unsorted field list for `NFTokenCreateOffer`. -/
def NFTokenCreateOffer.structFields (t : NFTokenCreateOffer) : List FieldInst :=
  [(AccountMeta, fun _ => some t.account),
   (TransactionTypeMeta, fun _ => some (u16be t.transaction_type)),
   (FeeMeta, fun _ => some t.fee.binarySerialize),
   (SequenceMeta, fun _ => some (u32be t.sequence)),
   (TicketSequenceMeta, fun _ => some (u32be t.ticket_sequence)),
   (FlagsMeta, fun _ => some (u32be t.flags)),
   (SourceTagMeta, fun _ => some (u32be t.source_tag)),
   (AmountMeta, fun _ => some t.amount.binarySerialize),
   (DestinationMeta, fun _ => some t.destination),
   (NFTokenIDMeta, fun _ => some t.nftoken_id),
   (SigningPubKeyMeta, fun _ => some t.signing_pub_key),
   (TxnSignatureMeta, fun _ => some t.txn_signature)]

/-- Generated `NFTokenCreateOffer::to_canonical_fields`. -/
def NFTokenCreateOffer.to_canonical_fields (t : NFTokenCreateOffer) : List FieldInst :=
  sortCanonical t.structFields

/-- Generated `BinarySerialize` impl for `NFTokenCreateOffer`. -/
def NFTokenCreateOffer.binary_serialize (t : NFTokenCreateOffer)
    (for_signing : Bool) : Option (List Nat) :=
  serializeFields t.to_canonical_fields for_signing

/-- `NFTokenCreateOffer::new` (transaction type code 27, sell-offer flag
`0x0000_0001`). -/
def NFTokenCreateOffer.new (account destination : List Nat) (nftoken_id : List Nat)
    (amount : Nat) (sequence : Nat) (ticket_sequence : Nat) (fee : Nat)
    (source_tag : Nat) (signing_pub_key : Option (List Nat)) : NFTokenCreateOffer :=
  { account := account
    transaction_type := 27
    fee := .Drops fee
    sequence := sequence
    ticket_sequence := ticket_sequence
    flags := 0x00000001
    source_tag := source_tag
    amount := .Drops amount
    destination := destination
    nftoken_id := nftoken_id
    signing_pub_key := signing_pub_key.getD []
    txn_signature := [] }

/-- The protocol's documented comparison of two fields in wire order: type
code first, field code as tie-break (the property the repository's own
order tests assert pairwise). -/
def typeFirstPairOk (a b : FieldMetadata) : Bool :=
  decide (a.type_code < b.type_code) ||
    (decide (a.type_code = b.type_code) && decide (a.field_code ≤ b.field_code))

/-- `typeFirstSortedOk l` holds when every consecutive pair of `l` is in
documented wire order (type code first, then field code). -/
def typeFirstSortedOk : List FieldMetadata → Bool
  | a :: b :: rest => typeFirstPairOk a b && typeFirstSortedOk (b :: rest)
  | _ => true

/-- The check performed by the repository's canonical-order tests
(`codec/src/transaction.rs`): iterate `chunks(2)` — non-overlapping pairs —
and assert each pair is in type-code-first order. -/
def chunksPairsOk : List FieldMetadata → Bool
  | a :: b :: rest => typeFirstPairOk a b && chunksPairsOk rest
  | _ => true

/-- The weighted magnitude of a loop state `(mantissa, exponent)`:
`mantissa * 10 ^ (exponent + 128)`, the exponent shifted by 128 so that it
is a natural number for every `i8` exponent.  Both normalization loops
preserve or shrink it, which drives the range characterization of
`from_mantissa_exponent`. -/
def wval (s : Nat × Int) : Nat :=
  s.1 * 10 ^ (s.2 + 128).toNat

/-- Whether a normalization result is the `OutOfRange` error. -/
def isOutOfRange : Except Error IssuedValue → Bool
  | .error (.OutOfRange _) => true
  | _ => false

/-- `secp256k1_public_key_to_account_id` (`codec/src/utils.rs`):
RIPEMD-160 of the SHA-256 of the public key.  The two hash primitives come
from external crates (`sha2`, `ripemd`) and are abstracted as function
parameters. -/
def secp256k1_public_key_to_account_id (sha256 ripemd160 : List Nat → List Nat)
    (public_key : List Nat) : List Nat :=
  ripemd160 (sha256 public_key)

/-- `encode_for_multi_signing` (`codec/src/utils.rs`): the 4-byte
domain-separation prefix `0x53 0x4D 0x54 0x00`, the transaction's
`for_signing = true` serialization, then the signer's account id.
`tx_binary_serialize` stands for the `impl BinarySerialize` argument's
`binary_serialize` method. -/
def encode_for_multi_signing (sha256 ripemd160 : List Nat → List Nat)
    (tx_binary_serialize : Bool → List Nat) (public_key : List Nat) : List Nat :=
  [0x53, 0x4d, 0x54, 0x00] ++ tx_binary_serialize true ++
    secp256k1_public_key_to_account_id sha256 ripemd160 public_key

/-- `digest_for_multi_signing` (`codec/src/utils.rs`): the first 32 bytes of
the SHA-512 of `encode_for_multi_signing`. -/
def digest_for_multi_signing (sha512 sha256 ripemd160 : List Nat → List Nat)
    (tx_binary_serialize : Bool → List Nat) (public_key : List Nat) : List Nat :=
  (sha512 (encode_for_multi_signing sha256 ripemd160 tx_binary_serialize public_key)).take 32

/-- `digest_for_multi_signing_pre` (`codec/src/utils.rs`): as
`digest_for_multi_signing`, but over pre-encoded transaction bytes. -/
def digest_for_multi_signing_pre (sha512 sha256 ripemd160 : List Nat → List Nat)
    (tx_data : List Nat) (public_key : List Nat) : List Nat :=
  (sha512 ([0x53, 0x4d, 0x54, 0x00] ++ tx_data ++
    secp256k1_public_key_to_account_id sha256 ripemd160 public_key)).take 32

/-- The concatenated encodings of the `SignerEntries` array items, in closed
form: for each entry the `SignerEntry` header `0xEB`, the `SignerWeight`
field `0x13 ‖ weight`, the `Account` field `0x81 ‖ 0x14 ‖ account`, the
object-end `0xE1`; then the array-end `0xF1`. -/
def signerEntriesBytes (l : List SignerEntryType) : List Nat :=
  (l.map fun s => [0xeb, 0x13] ++ u16be s.weight ++ ([0x81, 0x14] ++ s.account) ++ [0xe1]).flatten ++ [0xf1]

/-- The bytes of the canonically ordered `Payment` fields preceding
`TxnSignature` (`q` is the `SigningPubKey` length prefix). -/
def Payment.preBytes (p : Payment) (q : List Nat) : List Nat :=
  ([0x61] ++ p.amount.binarySerialize) ++
  ([0x81, 0x14] ++ p.account) ++
  ([0x12] ++ u16be p.transaction_type) ++
  ([0x22] ++ u32be p.flags) ++
  ([0x23] ++ u32be p.source_tag) ++
  ([0x73] ++ q ++ p.signing_pub_key) ++
  ([0x83, 0x14] ++ p.destination) ++
  ([0x24] ++ u32be p.sequence)

/-- The bytes of the canonically ordered `Payment` fields following
`TxnSignature`. -/
def Payment.postBytes (p : Payment) : List Nat :=
  ([0x68] ++ p.fee.binarySerialize) ++ ([0x20, 0x29] ++ u32be p.ticket_sequence)

/-- The bytes of the canonically ordered `PaymentWithDestinationTag` fields
preceding `TxnSignature`. -/
def PaymentWithDestinationTag.preBytes (p : PaymentWithDestinationTag)
    (q : List Nat) : List Nat :=
  ([0x61] ++ p.amount.binarySerialize) ++
  ([0x81, 0x14] ++ p.account) ++
  ([0x12] ++ u16be p.transaction_type) ++
  ([0x22] ++ u32be p.flags) ++
  ([0x23] ++ u32be p.source_tag) ++
  ([0x73] ++ q ++ p.signing_pub_key) ++
  ([0x83, 0x14] ++ p.destination) ++
  ([0x24] ++ u32be p.sequence)

/-- The bytes of the canonically ordered `PaymentWithDestinationTag` fields
following `TxnSignature`. -/
def PaymentWithDestinationTag.postBytes (p : PaymentWithDestinationTag) : List Nat :=
  ([0x68] ++ p.fee.binarySerialize) ++ ([0x2e] ++ u32be p.destination_tag) ++
  ([0x20, 0x29] ++ u32be p.ticket_sequence)

/-- The bytes of the canonically ordered `PaymentAltCurrency` fields
preceding `TxnSignature`. -/
def PaymentAltCurrency.preBytes (p : PaymentAltCurrency) (q : List Nat) : List Nat :=
  ([0x61] ++ p.amount.binarySerialize) ++
  ([0x81, 0x14] ++ p.account) ++
  ([0x12] ++ u16be p.transaction_type) ++
  ([0x22] ++ u32be p.flags) ++
  ([0x23] ++ u32be p.source_tag) ++
  ([0x73] ++ q ++ p.signing_pub_key) ++
  ([0x83, 0x14] ++ p.destination) ++
  ([0x24] ++ u32be p.sequence)

/-- The bytes of the canonically ordered `PaymentAltCurrency` fields
following `TxnSignature`. -/
def PaymentAltCurrency.postBytes (p : PaymentAltCurrency) : List Nat :=
  ([0x68] ++ p.fee.binarySerialize) ++ ([0x20, 0x29] ++ u32be p.ticket_sequence)

/-- The bytes of the canonically ordered `SignerListSet` fields preceding
`TxnSignature`. -/
def SignerListSet.preBytes (t : SignerListSet) (q : List Nat) : List Nat :=
  ([0x81, 0x14] ++ t.account) ++
  ([0x12] ++ u16be t.transaction_type) ++
  ([0x22] ++ u32be t.flags) ++
  ([0x23] ++ u32be t.source_tag) ++
  ([0x73] ++ q ++ t.signing_pub_key) ++
  ([0x24] ++ u32be t.sequence)

/-- The bytes of the canonically ordered `SignerListSet` fields following
`TxnSignature`. -/
def SignerListSet.postBytes (t : SignerListSet) : List Nat :=
  ([0xf4] ++ signerEntriesBytes t.signer_entries) ++
  ([0x68] ++ t.fee.binarySerialize) ++
  ([0x20, 0x23] ++ u32be t.signer_quorum) ++
  ([0x20, 0x29] ++ u32be t.ticket_sequence)

/-- The bytes of the canonically ordered `NFTokenCreateOffer` fields
preceding `TxnSignature`. -/
def NFTokenCreateOffer.preBytes (t : NFTokenCreateOffer) (q : List Nat) : List Nat :=
  ([0x61] ++ t.amount.binarySerialize) ++
  ([0x81, 0x14] ++ t.account) ++
  ([0x12] ++ u16be t.transaction_type) ++
  ([0x22] ++ u32be t.flags) ++
  ([0x23] ++ u32be t.source_tag) ++
  ([0x73] ++ q ++ t.signing_pub_key) ++
  ([0x83, 0x14] ++ t.destination) ++
  ([0x24] ++ u32be t.sequence)

/-- The bytes of the canonically ordered `NFTokenCreateOffer` fields
following `TxnSignature`. -/
def NFTokenCreateOffer.postBytes (t : NFTokenCreateOffer) : List Nat :=
  ([0x68] ++ t.fee.binarySerialize) ++ ([0x5a] ++ t.nftoken_id) ++
  ([0x20, 0x29] ++ u32be t.ticket_sequence)

/-- C6 -- For every serialized field, the emitted field header follows the
four-case rule: type code < 16 and field code < 16 gives the single byte
`(type_code <<< 4) ||| field_code`; type code < 16 and field code ≥ 16 gives
the two bytes `type_code <<< 4` then `field_code`; type code ≥ 16 and field
code < 16 gives `field_code` then `type_code`; type code ≥ 16 and field code
≥ 16 gives `0x00, type_code, field_code`.  (All fields of the library have
type and field codes below 256, so the `as u8` casts are the identity.) -/
theorem field_header_four_case_rule (tc fc : Nat) (htc : tc < 256) (hfc : fc < 256) :
    (tc < 16 → fc < 16 → fieldHeaderBytes tc fc = [(tc <<< 4) ||| fc]) ∧
    (tc < 16 → 16 ≤ fc → fieldHeaderBytes tc fc = [tc <<< 4, fc]) ∧
    (16 ≤ tc → fc < 16 → fieldHeaderBytes tc fc = [fc, tc]) ∧
    (16 ≤ tc → 16 ≤ fc → fieldHeaderBytes tc fc = [0x00, tc, fc]) := by
  have h16 : tc < 16 → (tc <<< 4) % 256 = tc <<< 4 := by
    intro h
    have : tc <<< 4 < 256 := by
      rw [Nat.shiftLeft_eq]
      omega
    exact Nat.mod_eq_of_lt this
  refine ⟨?_, ?_, ?_, ?_⟩
  · intro h1 h2
    have hlt : (tc <<< 4) ||| fc < 256 := by
      have htc4 : tc <<< 4 < 2 ^ 8 := by
        rw [Nat.shiftLeft_eq]; omega
      have hfc8 : fc < 2 ^ 8 := by omega
      exact Nat.bitwise_lt htc4 hfc8
    simp [fieldHeaderBytes, h1, h2, Nat.mod_eq_of_lt hlt]
  · intro h1 h2
    simp [fieldHeaderBytes, h1, Nat.not_lt.mpr h2, h16 h1, Nat.mod_eq_of_lt hfc]
  · intro h1 h2
    simp [fieldHeaderBytes, Nat.not_lt.mpr h1, h1, h2,
      Nat.mod_eq_of_lt htc, Nat.mod_eq_of_lt hfc]
  · intro h1 h2
    simp [fieldHeaderBytes, Nat.not_lt.mpr h1, Nat.not_lt.mpr h2, h1,
      Nat.mod_eq_of_lt htc, Nat.mod_eq_of_lt hfc]

/-- Witness for C6: at `(type_code, field_code) = (7, 4)` (`TxnSignature`) the
single header byte is `0x74`; at `(2, 41)` (`TicketSequence`) the header is
the two bytes `0x20, 0x29`; at `(17, 1)` (`TakerPaysCurrency`) it is
`0x01, 0x11`; at `(16, 16)` (`TickSize`) it is `0x00, 0x10, 0x10`. -/
theorem field_header_four_case_rule_witness :
    fieldHeaderBytes 7 4 = [0x74] ∧ fieldHeaderBytes 2 41 = [0x20, 0x29] ∧
    fieldHeaderBytes 17 1 = [0x01, 0x11] ∧ fieldHeaderBytes 16 16 = [0x00, 0x10, 0x10] := by
  refine ⟨?_, ?_, ?_, ?_⟩
  · have h := (field_header_four_case_rule 7 4 (by decide) (by decide)).1
      (by decide) (by decide)
    rw [h]; decide
  · have h := (field_header_four_case_rule 2 41 (by decide) (by decide)).2.1
      (by decide) (by decide)
    rw [h]; decide
  · exact (field_header_four_case_rule 17 1 (by decide) (by decide)).2.2.1
      (by decide) (by decide)
  · exact (field_header_four_case_rule 16 16 (by decide) (by decide)).2.2.2
      (by decide) (by decide)

/-- C2 (divergence witness) -- `IssuedAmount::from_issued_value` has its
validity check inverted: for the repository's own test input
(`serialize_amount_issued` in `codec/src/field.rs`: value `5` with exponent
`0`, currency `"ASA"`, issuer twenty `0x03` bytes) the currency code is
valid, yet construction fails with `InvalidData`; for the reserved `"XRP"`
mnemonic — an invalid code — construction succeeds. -/
theorem from_issued_value_rejects_valid_accepts_invalid :
    IssuedValue.from_mantissa_exponent 5 0 = .ok ⟨5000000000000000, -15⟩ ∧
    (CurrencyCode.Standard [0x41, 0x53, 0x41]).is_valid = true ∧
    IssuedAmount.from_issued_value ⟨5000000000000000, -15⟩
        (.Standard [0x41, 0x53, 0x41]) (List.replicate 20 3) =
      .error (.InvalidData "Issued amount cannot have invalid currency code") ∧
    (CurrencyCode.Standard [0x58, 0x52, 0x50]).is_valid = false ∧
    IssuedAmount.from_issued_value ⟨5000000000000000, -15⟩
        (.Standard [0x58, 0x52, 0x50]) (List.replicate 20 3) =
      .ok ⟨⟨5000000000000000, -15⟩, .Standard [0x58, 0x52, 0x50], List.replicate 20 3⟩ := by
  refine ⟨by rfl, by decide, by rfl, by decide, by rfl⟩

/-- If the first scaling loop's guard already fails, it returns its input
unchanged (for any fuel). -/
theorem normLoop1_exit (fuel : Nat) (m : Nat) (e : Int)
    (h : ¬(m < MANTISSA_MIN ∧ EXPONENT_MIN < e)) : normLoop1 fuel (m, e) = (m, e) := by
  cases fuel with
  | zero => rfl
  | succ n => simp [normLoop1, h]

/-- If the second scaling loop's guard already fails, it returns its input
unchanged (for any fuel). -/
theorem normLoop2_exit (fuel : Nat) (m : Nat) (e : Int)
    (h : ¬(MANTISSA_MAX < m ∧ e < EXPONENT_MAX)) : normLoop2 fuel (m, e) = (m, e) := by
  cases fuel with
  | zero => rfl
  | succ n => simp [normLoop2, h]

/-- Every successful result of `from_mantissa_exponent` is the canonical zero
or has its absolute mantissa and exponent inside the normalized ranges (read
off the two guards protecting the final `Ok`). -/
theorem from_mantissa_exponent_ok_shape (m e : Int) (v : IssuedValue)
    (h : IssuedValue.from_mantissa_exponent m e = .ok v) :
    v = IssuedValue.zero ∨
      (MANTISSA_MIN ≤ v.mantissa.natAbs ∧ v.mantissa.natAbs ≤ MANTISSA_MAX ∧
        EXPONENT_MIN ≤ v.exponent ∧ v.exponent ≤ EXPONENT_MAX) := by
  unfold IssuedValue.from_mantissa_exponent IssuedValue.normalize at h
  dsimp only at h
  by_cases h0 : m = 0
  · rw [if_pos h0] at h
    exact Or.inl (Except.ok.inj h).symm
  · rw [if_neg h0] at h
    by_cases hmin : m = -(2 ^ 63)
    · rw [if_pos hmin] at h
      exact absurd h (by simp)
    · rw [if_neg hmin] at h
      set s := normLoop2 normFuel (normLoop1 normFuel (m.natAbs, e)) with hs
      by_cases hbig : MANTISSA_MAX < s.1 ∨ EXPONENT_MAX < s.2
      · rw [if_pos hbig] at h
        exact absurd h (by simp)
      · rw [if_neg hbig] at h
        by_cases hsmall : s.1 < MANTISSA_MIN ∨ s.2 < EXPONENT_MIN
        · rw [if_pos hsmall] at h
          exact Or.inl (Except.ok.inj h).symm
        · rw [if_neg hsmall] at h
          right
          have hv := Except.ok.inj h
          push_neg at hbig hsmall
          rw [← hv]
          refine ⟨?_, ?_, hsmall.2, hbig.2⟩
          · dsimp only
            split_ifs <;> simpa using hsmall.1
          · dsimp only
            split_ifs <;> simpa using hbig.1

/-- C8 -- `from_mantissa_exponent` is idempotent: feeding a successfully
normalized value's mantissa and exponent back in succeeds and returns the
same value unchanged. -/
theorem from_mantissa_exponent_idempotent (m e : Int) (v : IssuedValue)
    (h : IssuedValue.from_mantissa_exponent m e = .ok v) :
    IssuedValue.from_mantissa_exponent v.mantissa v.exponent = .ok v := by
  rcases from_mantissa_exponent_ok_shape m e v h with hz | ⟨h1, h2, h3, h4⟩
  · rw [hz]
    rfl
  · have hm0 : v.mantissa ≠ 0 := by
      intro h0
      rw [h0] at h1
      simp [MANTISSA_MIN] at h1
    have hmabs : v.mantissa.natAbs < 2 ^ 63 := by
      have : MANTISSA_MAX < 2 ^ 63 := by decide
      omega
    have hmmin : v.mantissa ≠ -(2 ^ 63) := by
      intro hmin
      rw [hmin] at hmabs
      simp at hmabs
    unfold IssuedValue.from_mantissa_exponent IssuedValue.normalize
    dsimp only
    rw [if_neg hm0, if_neg hmmin]
    rw [normLoop1_exit _ _ _ (by omega), normLoop2_exit _ _ _ (by omega)]
    rw [if_neg (by dsimp only; omega), if_neg (by dsimp only; omega)]
    have hveta : v = ⟨v.mantissa, v.exponent⟩ := rfl
    rw [hveta]
    simp only [Except.ok.injEq, IssuedValue.mk.injEq]
    refine ⟨?_, trivial⟩
    split_ifs with hneg <;> omega

/-- Witness for C8: `from_mantissa_exponent 5 0` normalizes to
`(5 * 10^15, -15)`, and re-normalizing that result is the identity. -/
theorem from_mantissa_exponent_idempotent_witness :
    IssuedValue.from_mantissa_exponent 5000000000000000 (-15) =
      .ok ⟨5000000000000000, -15⟩ :=
  from_mantissa_exponent_idempotent 5 0 ⟨5000000000000000, -15⟩ (by rfl)

/-- For payload lengths up to the protocol maximum the length prefix exists
and is one to three bytes long. -/
theorem vlLengthBytes_total (n : Nat) (h : n ≤ 918744) :
    ∃ p, vlLengthBytes n = some p ∧ 1 ≤ p.length ∧ p.length ≤ 3 := by
  unfold vlLengthBytes
  split_ifs <;> first | exact ⟨_, rfl, by simp⟩ | omega

/-- Above the protocol maximum the encoder hits the `panic!` arm. -/
theorem vlLengthBytes_too_long (n : Nat) (h : 918744 < n) :
    vlLengthBytes n = none := by
  unfold vlLengthBytes
  split_ifs <;> first | omega | rfl

/-- C3 -- Boundary behaviour of the variable-length prefix.  Lengths 192,
193 and 12,480 produce the documented prefixes `[192]`, `[193, 0]` and
`[240, 255]`, every length up to 12,480 a prefix of at most two bytes, and
every length in 12,481–918,744 a prefix of exactly three bytes — but at
length 12,481 the emitted three bytes are `[240, 255, 254]`: the source
subtracts `12_841` (a digit transposition of the protocol's `12_481`), which
wraps around, and adds `241` to the resulting top byte with `u8` overflow,
instead of producing the documented `[241, 0, 0]`. -/
theorem length_prefix_boundaries :
    vlLengthBytes 192 = some [192] ∧
    vlLengthBytes 193 = some [193, 0] ∧
    vlLengthBytes 12480 = some [240, 255] ∧
    (∀ n p, n ≤ 12480 → vlLengthBytes n = some p → p.length ≤ 2) ∧
    (∀ n p, 12481 ≤ n → n ≤ 918744 → vlLengthBytes n = some p → p.length = 3) ∧
    vlLengthBytes 12481 = some [240, 255, 254] ∧
    [240, 255, 254] ≠ [241, 0, 0] := by
  refine ⟨by decide, by decide, by decide, ?_, ?_, by decide, by decide⟩
  · intro n p hn hp
    unfold vlLengthBytes at hp
    split_ifs at hp <;>
      first
        | (obtain rfl := Option.some.inj hp; simp)
        | omega
        | exact absurd hp (by simp)
  · intro n p hn hn' hp
    unfold vlLengthBytes at hp
    split_ifs at hp <;>
      first
        | omega
        | (obtain rfl := Option.some.inj hp; simp)
        | exact absurd hp (by simp)

/-- Witness for C3: length 100 gets a one-byte prefix; length 20,000 gets a
three-byte prefix. -/
theorem length_prefix_boundaries_witness :
    vlLengthBytes 100 = some [100] ∧ (vlLengthBytes 20000).elim 0 List.length = 3 := by
  constructor
  · decide
  · obtain ⟨p, hp, -⟩ := vlLengthBytes_total 20000 (by decide)
    have h3 := length_prefix_boundaries.2.2.2.2.1 20000 p (by decide) (by decide) hp
    rw [hp]
    simpa using h3

/-- C4 -- Encoding a variable-length field of non-account type code is total
for payload lengths up to 918,744 — it emits the header, a one- to
three-byte length prefix, then the payload — and hits the `panic!`
(modelled as `none`) for every longer payload. -/
theorem vl_field_encode_total_or_panic (tc fc : Nat) (fs : Bool) (data : List Nat)
    (hacct : tc ≠ ACCOUNT_ID_TYPE_CODE) :
    (data.length ≤ 918744 →
      ∃ p, vlLengthBytes data.length = some p ∧ 1 ≤ p.length ∧ p.length ≤ 3 ∧
        binarySerializeField ⟨tc, fc, true, true, true⟩ data fs =
          some (fieldHeaderBytes tc fc ++ p ++ data)) ∧
    (918744 < data.length →
      binarySerializeField ⟨tc, fc, true, true, true⟩ data fs = none) := by
  constructor
  · intro hlen
    obtain ⟨p, hp, hp1, hp3⟩ := vlLengthBytes_total data.length hlen
    refine ⟨p, hp, hp1, hp3, ?_⟩
    unfold binarySerializeField
    simp [hacct, hp]
  · intro hlen
    unfold binarySerializeField
    simp [hacct, vlLengthBytes_too_long data.length hlen]

/-- Witness for C4: a three-byte payload on the `SigningPubKey` field
`(7, 3)` encodes with its one-byte prefix, and a payload of 918,745 bytes
panics. -/
theorem vl_field_encode_total_or_panic_witness :
    (∃ p, vlLengthBytes ([1, 2, 3] : List Nat).length = some p ∧ 1 ≤ p.length ∧
      p.length ≤ 3 ∧
      binarySerializeField ⟨7, 3, true, true, true⟩ [1, 2, 3] false =
        some (fieldHeaderBytes 7 3 ++ p ++ [1, 2, 3])) ∧
    binarySerializeField ⟨7, 3, true, true, true⟩ (List.replicate 918745 0) false = none :=
  ⟨(vl_field_encode_total_or_panic 7 3 false [1, 2, 3] (by decide)).1 (by decide),
   (vl_field_encode_total_or_panic 7 3 false (List.replicate 918745 0) (by decide)).2
     (by rw [List.length_replicate]; omega)⟩

/-- C10 -- The pre-encoded digest path agrees with the direct path: for any
serializable transaction (any `binary_serialize` function), any public key
and any hash primitives, `digest_for_multi_signing` equals
`digest_for_multi_signing_pre` applied to the `for_signing = true`
serialization, and both are the first 32 bytes of the SHA-512 of the 4-byte
prefix `0x53 0x4D 0x54 0x00`, the for-signing serialization, and the account
id derived from the public key. -/
theorem digest_for_multi_signing_pre_refines_direct
    (sha512 sha256 ripemd160 : List Nat → List Nat)
    (tx_binary_serialize : Bool → List Nat) (public_key : List Nat) :
    digest_for_multi_signing sha512 sha256 ripemd160 tx_binary_serialize public_key =
      digest_for_multi_signing_pre sha512 sha256 ripemd160
        (tx_binary_serialize true) public_key ∧
    digest_for_multi_signing sha512 sha256 ripemd160 tx_binary_serialize public_key =
      (sha512 ([0x53, 0x4d, 0x54, 0x00] ++ tx_binary_serialize true ++
        ripemd160 (sha256 public_key))).take 32 :=
  ⟨rfl, rfl⟩

/-- C1 (divergence witness) -- `to_canonical_fields` sorts by field code
first (tie-break on type code), not by type code first.  On the repository's
own canonical-order test input (`test_Payment_canonical_field_order`,
`codec/src/transaction.rs`) the produced `(type_code, field_code)` sequence
places `Amount` (6,1) and `Account` (8,1) before `TransactionType` (1,2) and
`Destination` (8,3) before `Sequence` (2,4), so the list is not sorted in
type-code-first order, and even the test's own weaker `chunks(2)` pairwise
assertion fails (at the pair `Destination`/`Sequence`). -/
theorem to_canonical_fields_not_type_first_sorted :
    ((Payment.new (List.replicate 20 1) (List.replicate 20 2) 5000000 1 1 1000 38887387
        (some (List.replicate 33 1))).to_canonical_fields).map
        (fun f => (f.1.type_code, f.1.field_code)) =
      [(6, 1), (8, 1), (1, 2), (2, 2), (2, 3), (7, 3), (8, 3), (2, 4), (7, 4),
        (6, 8), (2, 41)] ∧
    typeFirstSortedOk
      (((Payment.new (List.replicate 20 1) (List.replicate 20 2) 5000000 1 1 1000 38887387
        (some (List.replicate 33 1))).to_canonical_fields).map (fun f => f.1)) = false ∧
    chunksPairsOk
      (((Payment.new (List.replicate 20 1) (List.replicate 20 2) 5000000 1 1 1000 38887387
        (some (List.replicate 33 1))).to_canonical_fields).map (fun f => f.1)) = false := by
  refine ⟨by rfl, by rfl, by rfl⟩

/-- Concatenation distributes over `serializeFields`. -/
theorem serializeFields_append (l1 l2 : List FieldInst) (fs : Bool) :
    serializeFields (l1 ++ l2) fs =
      (serializeFields l1 fs).bind fun a =>
        (serializeFields l2 fs).bind fun b => some (a ++ b) := by
  induction l1 with
  | nil =>
    cases h : serializeFields l2 fs <;> simp [serializeFields, h]
  | cons f l1 ih =>
    cases hi : f.2 fs with
    | none => simp [serializeFields, hi]
    | some inner =>
      cases hb : binarySerializeField f.1 inner fs with
      | none => simp [serializeFields, hi, hb]
      | some bytes =>
        cases ha : serializeFields l1 fs with
        | none => simp [serializeFields, hi, hb, ih, ha]
        | some a =>
          cases hc : serializeFields l2 fs <;>
            simp [serializeFields, hi, hb, ih, ha, hc, List.append_assoc]

/-- The array serializer for signer entries never fails and produces the
closed-form bytes of `signerEntriesBytes`, independently of `for_signing`
(both nested fields are signing fields). -/
theorem STArraySignerEntriesSer_eq (l : List SignerEntryType) (fs : Bool) :
    STArraySignerEntriesSer l fs = some (signerEntriesBytes l) := by
  have key : ∀ m : List SignerEntryType, signerEntryItemsSer m fs =
      some ((m.map fun s =>
        [0xeb, 0x13] ++ u16be s.weight ++ ([0x81, 0x14] ++ s.account) ++ [0xe1]).flatten) := by
    intro m
    induction m with
    | nil => rfl
    | cons s m ih =>
      simp [signerEntryItemsSer, SignerEntryType.binarySerialize, binarySerializeField,
        SignerWeightMeta, AccountMeta, SignerEntryMeta, fieldHeaderBytes,
        ACCOUNT_ID_TYPE_CODE, ih, List.append_assoc]
  simp [STArraySignerEntriesSer, key, signerEntriesBytes]

/-- `Payment` serialization splits at the `TxnSignature` field: the fields
canonically before it (`preBytes`), the signature field itself, the fields
canonically after it (`postBytes`); the `for_signing = true` form omits
exactly the signature field's bytes. -/
theorem payment_serialize_split (p : Payment) (q r : List Nat)
    (hq : vlLengthBytes p.signing_pub_key.length = some q)
    (hr : vlLengthBytes p.txn_signature.length = some r) :
    serializeFields (p.to_canonical_fields.take 8) false = some (p.preBytes q) ∧
    serializeFields (p.to_canonical_fields.drop 9) false = some p.postBytes ∧
    binarySerializeField TxnSignatureMeta p.txn_signature false =
      some ([0x74] ++ r ++ p.txn_signature) ∧
    p.binary_serialize false =
      some (p.preBytes q ++ ([0x74] ++ r ++ p.txn_signature) ++ p.postBytes) ∧
    p.binary_serialize true = some (p.preBytes q ++ p.postBytes) := by
  refine ⟨?_, ?_, ?_, ?_, ?_⟩ <;>
    simp [Payment.binary_serialize, Payment.to_canonical_fields, Payment.structFields,
      sortCanonical, insertCanonical, canonicalLe, serializeFields, binarySerializeField,
      fieldHeaderBytes, AccountMeta, TransactionTypeMeta, FeeMeta, SequenceMeta,
      TicketSequenceMeta, FlagsMeta, AmountMeta, DestinationMeta, SigningPubKeyMeta,
      TxnSignatureMeta, SourceTagMeta, ACCOUNT_ID_TYPE_CODE, hq, hr,
      Payment.preBytes, Payment.postBytes, List.append_assoc]

/-- `PaymentWithDestinationTag` serialization splits at `TxnSignature`. -/
theorem paymentWithDestinationTag_serialize_split (p : PaymentWithDestinationTag)
    (q r : List Nat)
    (hq : vlLengthBytes p.signing_pub_key.length = some q)
    (hr : vlLengthBytes p.txn_signature.length = some r) :
    serializeFields (p.to_canonical_fields.take 8) false = some (p.preBytes q) ∧
    serializeFields (p.to_canonical_fields.drop 9) false = some p.postBytes ∧
    binarySerializeField TxnSignatureMeta p.txn_signature false =
      some ([0x74] ++ r ++ p.txn_signature) ∧
    p.binary_serialize false =
      some (p.preBytes q ++ ([0x74] ++ r ++ p.txn_signature) ++ p.postBytes) ∧
    p.binary_serialize true = some (p.preBytes q ++ p.postBytes) := by
  refine ⟨?_, ?_, ?_, ?_, ?_⟩ <;>
    simp [PaymentWithDestinationTag.binary_serialize,
      PaymentWithDestinationTag.to_canonical_fields,
      PaymentWithDestinationTag.structFields, sortCanonical, insertCanonical,
      canonicalLe, serializeFields, binarySerializeField, fieldHeaderBytes, AccountMeta,
      TransactionTypeMeta, FeeMeta, SequenceMeta, TicketSequenceMeta, FlagsMeta,
      AmountMeta, DestinationMeta, SigningPubKeyMeta, TxnSignatureMeta, SourceTagMeta,
      DestinationTagMeta, ACCOUNT_ID_TYPE_CODE, hq, hr,
      PaymentWithDestinationTag.preBytes, PaymentWithDestinationTag.postBytes,
      List.append_assoc]

/-- `PaymentAltCurrency` serialization splits at `TxnSignature`. -/
theorem paymentAltCurrency_serialize_split (p : PaymentAltCurrency) (q r : List Nat)
    (hq : vlLengthBytes p.signing_pub_key.length = some q)
    (hr : vlLengthBytes p.txn_signature.length = some r) :
    serializeFields (p.to_canonical_fields.take 8) false = some (p.preBytes q) ∧
    serializeFields (p.to_canonical_fields.drop 9) false = some p.postBytes ∧
    binarySerializeField TxnSignatureMeta p.txn_signature false =
      some ([0x74] ++ r ++ p.txn_signature) ∧
    p.binary_serialize false =
      some (p.preBytes q ++ ([0x74] ++ r ++ p.txn_signature) ++ p.postBytes) ∧
    p.binary_serialize true = some (p.preBytes q ++ p.postBytes) := by
  refine ⟨?_, ?_, ?_, ?_, ?_⟩ <;>
    simp [PaymentAltCurrency.binary_serialize, PaymentAltCurrency.to_canonical_fields,
      PaymentAltCurrency.structFields, sortCanonical, insertCanonical, canonicalLe,
      serializeFields, binarySerializeField, fieldHeaderBytes, AccountMeta,
      TransactionTypeMeta, FeeMeta, SequenceMeta, TicketSequenceMeta, FlagsMeta,
      AmountMeta, DestinationMeta, SigningPubKeyMeta, TxnSignatureMeta, SourceTagMeta,
      ACCOUNT_ID_TYPE_CODE, hq, hr, PaymentAltCurrency.preBytes,
      PaymentAltCurrency.postBytes, List.append_assoc]

/-- `SignerListSet` serialization splits at `TxnSignature`. -/
theorem signerListSet_serialize_split (t : SignerListSet) (q r : List Nat)
    (hq : vlLengthBytes t.signing_pub_key.length = some q)
    (hr : vlLengthBytes t.txn_signature.length = some r) :
    serializeFields (t.to_canonical_fields.take 6) false = some (t.preBytes q) ∧
    serializeFields (t.to_canonical_fields.drop 7) false = some t.postBytes ∧
    binarySerializeField TxnSignatureMeta t.txn_signature false =
      some ([0x74] ++ r ++ t.txn_signature) ∧
    t.binary_serialize false =
      some (t.preBytes q ++ ([0x74] ++ r ++ t.txn_signature) ++ t.postBytes) ∧
    t.binary_serialize true = some (t.preBytes q ++ t.postBytes) := by
  refine ⟨?_, ?_, ?_, ?_, ?_⟩ <;>
    simp [SignerListSet.binary_serialize, SignerListSet.to_canonical_fields,
      SignerListSet.structFields, sortCanonical, insertCanonical, canonicalLe,
      serializeFields, binarySerializeField, fieldHeaderBytes, AccountMeta,
      TransactionTypeMeta, FeeMeta, SequenceMeta, TicketSequenceMeta, FlagsMeta,
      SignerQuorumMeta, SignerEntriesMeta, SigningPubKeyMeta, TxnSignatureMeta,
      SourceTagMeta, ACCOUNT_ID_TYPE_CODE, hq, hr, STArraySignerEntriesSer_eq,
      SignerListSet.preBytes, SignerListSet.postBytes, List.append_assoc]

/-- `NFTokenCreateOffer` serialization splits at `TxnSignature`. -/
theorem nftokenCreateOffer_serialize_split (t : NFTokenCreateOffer) (q r : List Nat)
    (hq : vlLengthBytes t.signing_pub_key.length = some q)
    (hr : vlLengthBytes t.txn_signature.length = some r) :
    serializeFields (t.to_canonical_fields.take 8) false = some (t.preBytes q) ∧
    serializeFields (t.to_canonical_fields.drop 9) false = some t.postBytes ∧
    binarySerializeField TxnSignatureMeta t.txn_signature false =
      some ([0x74] ++ r ++ t.txn_signature) ∧
    t.binary_serialize false =
      some (t.preBytes q ++ ([0x74] ++ r ++ t.txn_signature) ++ t.postBytes) ∧
    t.binary_serialize true = some (t.preBytes q ++ t.postBytes) := by
  refine ⟨?_, ?_, ?_, ?_, ?_⟩ <;>
    simp [NFTokenCreateOffer.binary_serialize, NFTokenCreateOffer.to_canonical_fields,
      NFTokenCreateOffer.structFields, sortCanonical, insertCanonical, canonicalLe,
      serializeFields, binarySerializeField, fieldHeaderBytes, AccountMeta,
      TransactionTypeMeta, FeeMeta, SequenceMeta, TicketSequenceMeta, FlagsMeta,
      AmountMeta, DestinationMeta, NFTokenIDMeta, SigningPubKeyMeta, TxnSignatureMeta,
      SourceTagMeta, ACCOUNT_ID_TYPE_CODE, hq, hr, NFTokenCreateOffer.preBytes,
      NFTokenCreateOffer.postBytes, List.append_assoc]

/-- C5 -- For every transaction value of the library's five transaction
types (with variable-length payloads within the encodable bound), the
`for_signing = false` serialization equals the `for_signing = true`
serialization with exactly the `TxnSignature` field's encoded bytes (header
`0x74`, length prefix, payload) inserted at that field's canonical position:
both serializations share the byte blocks `preBytes` (the canonical fields
before `TxnSignature`: the first 8 canonical fields for the payment and NFT
offer types, the first 6 for `SignerListSet`) and `postBytes` (the canonical
fields after it), and no other byte differs. -/
theorem serialize_signature_insertion :
    (∀ p : Payment, p.signing_pub_key.length ≤ 918744 →
      p.txn_signature.length ≤ 918744 →
      ∃ q r, serializeFields (p.to_canonical_fields.take 8) false = some (p.preBytes q) ∧
        serializeFields (p.to_canonical_fields.drop 9) false = some p.postBytes ∧
        binarySerializeField TxnSignatureMeta p.txn_signature false =
          some ([0x74] ++ r ++ p.txn_signature) ∧
        p.binary_serialize false =
          some (p.preBytes q ++ ([0x74] ++ r ++ p.txn_signature) ++ p.postBytes) ∧
        p.binary_serialize true = some (p.preBytes q ++ p.postBytes)) ∧
    (∀ p : PaymentWithDestinationTag, p.signing_pub_key.length ≤ 918744 →
      p.txn_signature.length ≤ 918744 →
      ∃ q r, serializeFields (p.to_canonical_fields.take 8) false = some (p.preBytes q) ∧
        serializeFields (p.to_canonical_fields.drop 9) false = some p.postBytes ∧
        binarySerializeField TxnSignatureMeta p.txn_signature false =
          some ([0x74] ++ r ++ p.txn_signature) ∧
        p.binary_serialize false =
          some (p.preBytes q ++ ([0x74] ++ r ++ p.txn_signature) ++ p.postBytes) ∧
        p.binary_serialize true = some (p.preBytes q ++ p.postBytes)) ∧
    (∀ p : PaymentAltCurrency, p.signing_pub_key.length ≤ 918744 →
      p.txn_signature.length ≤ 918744 →
      ∃ q r, serializeFields (p.to_canonical_fields.take 8) false = some (p.preBytes q) ∧
        serializeFields (p.to_canonical_fields.drop 9) false = some p.postBytes ∧
        binarySerializeField TxnSignatureMeta p.txn_signature false =
          some ([0x74] ++ r ++ p.txn_signature) ∧
        p.binary_serialize false =
          some (p.preBytes q ++ ([0x74] ++ r ++ p.txn_signature) ++ p.postBytes) ∧
        p.binary_serialize true = some (p.preBytes q ++ p.postBytes)) ∧
    (∀ t : SignerListSet, t.signing_pub_key.length ≤ 918744 →
      t.txn_signature.length ≤ 918744 →
      ∃ q r, serializeFields (t.to_canonical_fields.take 6) false = some (t.preBytes q) ∧
        serializeFields (t.to_canonical_fields.drop 7) false = some t.postBytes ∧
        binarySerializeField TxnSignatureMeta t.txn_signature false =
          some ([0x74] ++ r ++ t.txn_signature) ∧
        t.binary_serialize false =
          some (t.preBytes q ++ ([0x74] ++ r ++ t.txn_signature) ++ t.postBytes) ∧
        t.binary_serialize true = some (t.preBytes q ++ t.postBytes)) ∧
    (∀ t : NFTokenCreateOffer, t.signing_pub_key.length ≤ 918744 →
      t.txn_signature.length ≤ 918744 →
      ∃ q r, serializeFields (t.to_canonical_fields.take 8) false = some (t.preBytes q) ∧
        serializeFields (t.to_canonical_fields.drop 9) false = some t.postBytes ∧
        binarySerializeField TxnSignatureMeta t.txn_signature false =
          some ([0x74] ++ r ++ t.txn_signature) ∧
        t.binary_serialize false =
          some (t.preBytes q ++ ([0x74] ++ r ++ t.txn_signature) ++ t.postBytes) ∧
        t.binary_serialize true = some (t.preBytes q ++ t.postBytes)) := by
  refine ⟨?_, ?_, ?_, ?_, ?_⟩
  · intro p h1 h2
    obtain ⟨q, hq, -, -⟩ := vlLengthBytes_total _ h1
    obtain ⟨r, hr, -, -⟩ := vlLengthBytes_total _ h2
    exact ⟨q, r, payment_serialize_split p q r hq hr⟩
  · intro p h1 h2
    obtain ⟨q, hq, -, -⟩ := vlLengthBytes_total _ h1
    obtain ⟨r, hr, -, -⟩ := vlLengthBytes_total _ h2
    exact ⟨q, r, paymentWithDestinationTag_serialize_split p q r hq hr⟩
  · intro p h1 h2
    obtain ⟨q, hq, -, -⟩ := vlLengthBytes_total _ h1
    obtain ⟨r, hr, -, -⟩ := vlLengthBytes_total _ h2
    exact ⟨q, r, paymentAltCurrency_serialize_split p q r hq hr⟩
  · intro p h1 h2
    obtain ⟨q, hq, -, -⟩ := vlLengthBytes_total _ h1
    obtain ⟨r, hr, -, -⟩ := vlLengthBytes_total _ h2
    exact ⟨q, r, signerListSet_serialize_split p q r hq hr⟩
  · intro p h1 h2
    obtain ⟨q, hq, -, -⟩ := vlLengthBytes_total _ h1
    obtain ⟨r, hr, -, -⟩ := vlLengthBytes_total _ h2
    exact ⟨q, r, nftokenCreateOffer_serialize_split p q r hq hr⟩

/-- Witness for C5: the `Payment` of the repository's decoding test (signed
with a 65-byte signature of `0x07` bytes) splits around its `TxnSignature`
field. -/
theorem serialize_signature_insertion_witness :
    ∃ q r, serializeFields
        (({ Payment.new (List.replicate 20 1) (List.replicate 20 2) 5000000 1 1 1000
            38887387 (some (List.replicate 33 1)) with
            txn_signature := List.replicate 65 7 } : Payment).to_canonical_fields.take 8)
        false =
        some (({ Payment.new (List.replicate 20 1) (List.replicate 20 2) 5000000 1 1 1000
            38887387 (some (List.replicate 33 1)) with
            txn_signature := List.replicate 65 7 } : Payment).preBytes q) ∧
      serializeFields
        (({ Payment.new (List.replicate 20 1) (List.replicate 20 2) 5000000 1 1 1000
            38887387 (some (List.replicate 33 1)) with
            txn_signature := List.replicate 65 7 } : Payment).to_canonical_fields.drop 9)
        false =
        some ({ Payment.new (List.replicate 20 1) (List.replicate 20 2) 5000000 1 1 1000
            38887387 (some (List.replicate 33 1)) with
            txn_signature := List.replicate 65 7 } : Payment).postBytes ∧
      binarySerializeField TxnSignatureMeta
          ({ Payment.new (List.replicate 20 1) (List.replicate 20 2) 5000000 1 1 1000
            38887387 (some (List.replicate 33 1)) with
            txn_signature := List.replicate 65 7 } : Payment).txn_signature false =
        some ([0x74] ++ r ++ List.replicate 65 7) ∧
      ({ Payment.new (List.replicate 20 1) (List.replicate 20 2) 5000000 1 1 1000
          38887387 (some (List.replicate 33 1)) with
          txn_signature := List.replicate 65 7 } : Payment).binary_serialize false =
        some (({ Payment.new (List.replicate 20 1) (List.replicate 20 2) 5000000 1 1 1000
            38887387 (some (List.replicate 33 1)) with
            txn_signature := List.replicate 65 7 } : Payment).preBytes q ++
          ([0x74] ++ r ++ List.replicate 65 7) ++
          ({ Payment.new (List.replicate 20 1) (List.replicate 20 2) 5000000 1 1 1000
            38887387 (some (List.replicate 33 1)) with
            txn_signature := List.replicate 65 7 } : Payment).postBytes) ∧
      ({ Payment.new (List.replicate 20 1) (List.replicate 20 2) 5000000 1 1 1000
          38887387 (some (List.replicate 33 1)) with
          txn_signature := List.replicate 65 7 } : Payment).binary_serialize true =
        some (({ Payment.new (List.replicate 20 1) (List.replicate 20 2) 5000000 1 1 1000
            38887387 (some (List.replicate 33 1)) with
            txn_signature := List.replicate 65 7 } : Payment).preBytes q ++
          ({ Payment.new (List.replicate 20 1) (List.replicate 20 2) 5000000 1 1 1000
            38887387 (some (List.replicate 33 1)) with
            txn_signature := List.replicate 65 7 } : Payment).postBytes) := by
  have h := serialize_signature_insertion.1
    ({ Payment.new (List.replicate 20 1) (List.replicate 20 2) 5000000 1 1 1000
        38887387 (some (List.replicate 33 1)) with
        txn_signature := List.replicate 65 7 } : Payment)
    (by simp [Payment.new]) (by simp)
  simpa using h

/-- Inserting a non-empty block strictly between two list halves changes the
list. -/
theorem some_append_middle_ne (pre mid post : List Nat) (h : mid ≠ []) :
    (some (pre ++ mid ++ post) : Option (List Nat)) ≠ some (pre ++ post) := by
  intro heq
  have hl := congrArg List.length (Option.some.inj heq)
  have hm : 0 < mid.length := List.length_pos.mpr h
  simp only [List.append_assoc, List.length_append] at hl
  omega

/-- C9 -- Every constructor leaves `txn_signature` empty, and serializing
any transaction whose `txn_signature` is empty with `for_signing = false`
still emits the `TxnSignature` field as its header byte `0x74` followed by
the length-prefix byte `0x00` and an empty payload, at the field's canonical
position — so the unsigned `for_signing = false` output differs from the
`for_signing = true` output. -/
theorem unsigned_serialize_emits_empty_signature_field :
    (∀ account destination amount nonce ticket_sequence fee source_tag spk,
      (Payment.new account destination amount nonce ticket_sequence fee source_tag
        spk).txn_signature = []) ∧
    (∀ p : Payment, p.txn_signature = [] → p.signing_pub_key.length ≤ 918744 →
      ∃ q, binarySerializeField TxnSignatureMeta p.txn_signature false =
          some [0x74, 0x00] ∧
        p.binary_serialize false = some (p.preBytes q ++ [0x74, 0x00] ++ p.postBytes) ∧
        p.binary_serialize true = some (p.preBytes q ++ p.postBytes) ∧
        p.binary_serialize false ≠ p.binary_serialize true) ∧
    (∀ account destination amount nonce ticket_sequence fee source_tag dtag spk,
      (PaymentWithDestinationTag.new account destination amount nonce ticket_sequence
        fee source_tag dtag spk).txn_signature = []) ∧
    (∀ p : PaymentWithDestinationTag, p.txn_signature = [] →
      p.signing_pub_key.length ≤ 918744 →
      ∃ q, binarySerializeField TxnSignatureMeta p.txn_signature false =
          some [0x74, 0x00] ∧
        p.binary_serialize false = some (p.preBytes q ++ [0x74, 0x00] ++ p.postBytes) ∧
        p.binary_serialize true = some (p.preBytes q ++ p.postBytes) ∧
        p.binary_serialize false ≠ p.binary_serialize true) ∧
    (∀ account destination amount nonce ticket_sequence fee source_tag spk,
      (PaymentAltCurrency.new account destination amount nonce ticket_sequence fee
        source_tag spk).txn_signature = []) ∧
    (∀ p : PaymentAltCurrency, p.txn_signature = [] →
      p.signing_pub_key.length ≤ 918744 →
      ∃ q, binarySerializeField TxnSignatureMeta p.txn_signature false =
          some [0x74, 0x00] ∧
        p.binary_serialize false = some (p.preBytes q ++ [0x74, 0x00] ++ p.postBytes) ∧
        p.binary_serialize true = some (p.preBytes q ++ p.postBytes) ∧
        p.binary_serialize false ≠ p.binary_serialize true) ∧
    (∀ account fee nonce ticket_sequence signer_quorum signer_entries source_tag spk,
      (SignerListSet.new account fee nonce ticket_sequence signer_quorum
        signer_entries source_tag spk).txn_signature = []) ∧
    (∀ t : SignerListSet, t.txn_signature = [] → t.signing_pub_key.length ≤ 918744 →
      ∃ q, binarySerializeField TxnSignatureMeta t.txn_signature false =
          some [0x74, 0x00] ∧
        t.binary_serialize false = some (t.preBytes q ++ [0x74, 0x00] ++ t.postBytes) ∧
        t.binary_serialize true = some (t.preBytes q ++ t.postBytes) ∧
        t.binary_serialize false ≠ t.binary_serialize true) ∧
    (∀ account destination nftoken_id amount sequence ticket_sequence fee source_tag
        spk,
      (NFTokenCreateOffer.new account destination nftoken_id amount sequence
        ticket_sequence fee source_tag spk).txn_signature = []) ∧
    (∀ t : NFTokenCreateOffer, t.txn_signature = [] →
      t.signing_pub_key.length ≤ 918744 →
      ∃ q, binarySerializeField TxnSignatureMeta t.txn_signature false =
          some [0x74, 0x00] ∧
        t.binary_serialize false = some (t.preBytes q ++ [0x74, 0x00] ++ t.postBytes) ∧
        t.binary_serialize true = some (t.preBytes q ++ t.postBytes) ∧
        t.binary_serialize false ≠ t.binary_serialize true) := by
  refine ⟨fun _ _ _ _ _ _ _ _ => rfl, ?_, fun _ _ _ _ _ _ _ _ _ => rfl, ?_,
    fun _ _ _ _ _ _ _ _ => rfl, ?_, fun _ _ _ _ _ _ _ _ => rfl, ?_,
    fun _ _ _ _ _ _ _ _ _ => rfl, ?_⟩
  · intro p hsig hlen
    obtain ⟨q, hq, -, -⟩ := vlLengthBytes_total _ hlen
    have hr : vlLengthBytes p.txn_signature.length = some [0] := by
      rw [hsig]
      rfl
    obtain ⟨-, -, h3, h4, h5⟩ := payment_serialize_split p q [0] hq hr
    rw [hsig] at h3 h4
    refine ⟨q, by simpa [hsig] using h3, by rw [h4]; simp, h5, ?_⟩
    rw [h4, h5]
    exact some_append_middle_ne _ _ _ (by simp)
  · intro p hsig hlen
    obtain ⟨q, hq, -, -⟩ := vlLengthBytes_total _ hlen
    have hr : vlLengthBytes p.txn_signature.length = some [0] := by
      rw [hsig]
      rfl
    obtain ⟨-, -, h3, h4, h5⟩ := paymentWithDestinationTag_serialize_split p q [0] hq hr
    rw [hsig] at h3 h4
    refine ⟨q, by simpa [hsig] using h3, by rw [h4]; simp, h5, ?_⟩
    rw [h4, h5]
    exact some_append_middle_ne _ _ _ (by simp)
  · intro p hsig hlen
    obtain ⟨q, hq, -, -⟩ := vlLengthBytes_total _ hlen
    have hr : vlLengthBytes p.txn_signature.length = some [0] := by
      rw [hsig]
      rfl
    obtain ⟨-, -, h3, h4, h5⟩ := paymentAltCurrency_serialize_split p q [0] hq hr
    rw [hsig] at h3 h4
    refine ⟨q, by simpa [hsig] using h3, by rw [h4]; simp, h5, ?_⟩
    rw [h4, h5]
    exact some_append_middle_ne _ _ _ (by simp)
  · intro p hsig hlen
    obtain ⟨q, hq, -, -⟩ := vlLengthBytes_total _ hlen
    have hr : vlLengthBytes p.txn_signature.length = some [0] := by
      rw [hsig]
      rfl
    obtain ⟨-, -, h3, h4, h5⟩ := signerListSet_serialize_split p q [0] hq hr
    rw [hsig] at h3 h4
    refine ⟨q, by simpa [hsig] using h3, by rw [h4]; simp, h5, ?_⟩
    rw [h4, h5]
    exact some_append_middle_ne _ _ _ (by simp)
  · intro p hsig hlen
    obtain ⟨q, hq, -, -⟩ := vlLengthBytes_total _ hlen
    have hr : vlLengthBytes p.txn_signature.length = some [0] := by
      rw [hsig]
      rfl
    obtain ⟨-, -, h3, h4, h5⟩ := nftokenCreateOffer_serialize_split p q [0] hq hr
    rw [hsig] at h3 h4
    refine ⟨q, by simpa [hsig] using h3, by rw [h4]; simp, h5, ?_⟩
    rw [h4, h5]
    exact some_append_middle_ne _ _ _ (by simp)

/-- Witness for C9: the freshly constructed `Payment` of the repository's
decoding test emits `0x74 0x00` between its `preBytes` and `postBytes`,
and its two serialization forms differ. -/
theorem unsigned_serialize_emits_empty_signature_field_witness :
    ∃ q, binarySerializeField TxnSignatureMeta
        (Payment.new (List.replicate 20 1) (List.replicate 20 2) 5000000 1 1 1000
          38887387 (some (List.replicate 33 1))).txn_signature false =
        some [0x74, 0x00] ∧
      (Payment.new (List.replicate 20 1) (List.replicate 20 2) 5000000 1 1 1000
          38887387 (some (List.replicate 33 1))).binary_serialize false =
        some ((Payment.new (List.replicate 20 1) (List.replicate 20 2) 5000000 1 1 1000
            38887387 (some (List.replicate 33 1))).preBytes q ++ [0x74, 0x00] ++
          (Payment.new (List.replicate 20 1) (List.replicate 20 2) 5000000 1 1 1000
            38887387 (some (List.replicate 33 1))).postBytes) ∧
      (Payment.new (List.replicate 20 1) (List.replicate 20 2) 5000000 1 1 1000
          38887387 (some (List.replicate 33 1))).binary_serialize true =
        some ((Payment.new (List.replicate 20 1) (List.replicate 20 2) 5000000 1 1 1000
            38887387 (some (List.replicate 33 1))).preBytes q ++
          (Payment.new (List.replicate 20 1) (List.replicate 20 2) 5000000 1 1 1000
            38887387 (some (List.replicate 33 1))).postBytes) ∧
      (Payment.new (List.replicate 20 1) (List.replicate 20 2) 5000000 1 1 1000
          38887387 (some (List.replicate 33 1))).binary_serialize false ≠
        (Payment.new (List.replicate 20 1) (List.replicate 20 2) 5000000 1 1 1000
          38887387 (some (List.replicate 33 1))).binary_serialize true :=
  unsigned_serialize_emits_empty_signature_field.2.1
    (Payment.new (List.replicate 20 1) (List.replicate 20 2) 5000000 1 1 1000
      38887387 (some (List.replicate 33 1))) rfl (by simp [Payment.new])

/-- The first scaling loop multiplies the mantissa by exactly the power of
ten it subtracts from the exponent, so the weighted magnitude `wval` is
preserved. -/
theorem normLoop1_wval (f : Nat) : ∀ (m : Nat) (e : Int), -128 ≤ e →
    wval (normLoop1 f (m, e)) = wval (m, e) := by
  induction f with
  | zero => intro m e _; rfl
  | succ f ih =>
    intro m e he
    by_cases hc : m < MANTISSA_MIN ∧ EXPONENT_MIN < e
    · have hE : EXPONENT_MIN = -96 := rfl
      have hstep : normLoop1 (f + 1) (m, e) = normLoop1 f (m * 10, e - 1) := by
        simp [normLoop1, hc]
      rw [hstep, ih (m * 10) (e - 1) (by omega)]
      unfold wval
      have h128 : (e + 128).toNat = (e - 1 + 128).toNat + 1 := by omega
      simp only [h128, pow_succ]
      ring
    · simp [normLoop1, hc]

/-- With fuel exceeding `exponent - EXPONENT_MIN` the first loop runs to
completion: its guard fails on the final state. -/
theorem normLoop1_exit_cond (f : Nat) : ∀ (m : Nat) (e : Int), (e + 96).toNat < f →
    ¬((normLoop1 f (m, e)).1 < MANTISSA_MIN ∧ EXPONENT_MIN < (normLoop1 f (m, e)).2) := by
  induction f with
  | zero => intro m e hf; omega
  | succ f ih =>
    intro m e hf
    by_cases hc : m < MANTISSA_MIN ∧ EXPONENT_MIN < e
    · have hE : EXPONENT_MIN = -96 := rfl
      have hstep : normLoop1 (f + 1) (m, e) = normLoop1 f (m * 10, e - 1) := by
        simp [normLoop1, hc]
      rw [hstep]
      exact ih (m * 10) (e - 1) (by omega)
    · simp only [normLoop1, if_neg hc]
      exact hc

/-- The first loop only decreases the exponent. -/
theorem normLoop1_e_le (f : Nat) : ∀ (m : Nat) (e : Int), (normLoop1 f (m, e)).2 ≤ e := by
  induction f with
  | zero => intro m e; exact le_refl e
  | succ f ih =>
    intro m e
    by_cases hc : m < MANTISSA_MIN ∧ EXPONENT_MIN < e
    · have hstep : normLoop1 (f + 1) (m, e) = normLoop1 f (m * 10, e - 1) := by
        simp [normLoop1, hc]
      rw [hstep]
      have := ih (m * 10) (e - 1)
      omega
    · simp [normLoop1, hc]

/-- The first loop keeps the exponent at or above `-128` (it never steps
below `EXPONENT_MIN`). -/
theorem normLoop1_e_lb (f : Nat) : ∀ (m : Nat) (e : Int), -128 ≤ e →
    -128 ≤ (normLoop1 f (m, e)).2 := by
  induction f with
  | zero => intro m e he; exact he
  | succ f ih =>
    intro m e he
    by_cases hc : m < MANTISSA_MIN ∧ EXPONENT_MIN < e
    · have hE : EXPONENT_MIN = -96 := rfl
      have hstep : normLoop1 (f + 1) (m, e) = normLoop1 f (m * 10, e - 1) := by
        simp [normLoop1, hc]
      rw [hstep]
      exact ih (m * 10) (e - 1) (by omega)
    · simp [normLoop1, hc]
      omega

/-- The second scaling loop's truncating division can only shrink the
weighted magnitude. -/
theorem normLoop2_wval_le (f : Nat) : ∀ (m : Nat) (e : Int), -128 ≤ e →
    wval (normLoop2 f (m, e)) ≤ wval (m, e) := by
  induction f with
  | zero => intro m e _; exact le_refl _
  | succ f ih =>
    intro m e he
    by_cases hc : MANTISSA_MAX < m ∧ e < EXPONENT_MAX
    · have hstep : normLoop2 (f + 1) (m, e) = normLoop2 f (m / 10, e + 1) := by
        simp [normLoop2, hc]
      rw [hstep]
      refine le_trans (ih (m / 10) (e + 1) (by omega)) ?_
      unfold wval
      have h128 : (e + 1 + 128).toNat = (e + 128).toNat + 1 := by omega
      simp only [h128, pow_succ]
      calc m / 10 * (10 ^ (e + 128).toNat * 10)
          = m / 10 * 10 * 10 ^ (e + 128).toNat := by ring
        _ ≤ m * 10 ^ (e + 128).toNat :=
            Nat.mul_le_mul_right _ (Nat.div_mul_le_self m 10)
    · simp [normLoop2, hc]

/-- Successor bound for the second loop: truncating division loses less
than one unit in the last place, so `(mantissa + 1)` weighted at the initial
exponent never exceeds `(final mantissa + 1)` weighted at the final
exponent. -/
theorem normLoop2_succ_bound (f : Nat) : ∀ (m : Nat) (e : Int), -128 ≤ e →
    (m + 1) * 10 ^ (e + 128).toNat ≤
      ((normLoop2 f (m, e)).1 + 1) * 10 ^ ((normLoop2 f (m, e)).2 + 128).toNat := by
  induction f with
  | zero => intro m e _; exact le_refl _
  | succ f ih =>
    intro m e he
    by_cases hc : MANTISSA_MAX < m ∧ e < EXPONENT_MAX
    · have hstep : normLoop2 (f + 1) (m, e) = normLoop2 f (m / 10, e + 1) := by
        simp [normLoop2, hc]
      rw [hstep]
      refine le_trans ?_ (ih (m / 10) (e + 1) (by omega))
      have h128 : (e + 1 + 128).toNat = (e + 128).toNat + 1 := by omega
      simp only [h128, pow_succ]
      have hdiv : m + 1 ≤ (m / 10 + 1) * 10 := by
        have := Nat.div_add_mod m 10
        have : m % 10 < 10 := Nat.mod_lt m (by norm_num)
        omega
      calc (m + 1) * 10 ^ (e + 128).toNat
          ≤ (m / 10 + 1) * 10 * 10 ^ (e + 128).toNat :=
            Nat.mul_le_mul_right _ hdiv
        _ = (m / 10 + 1) * (10 ^ (e + 128).toNat * 10) := by ring
    · simp [normLoop2, hc]

/-- With fuel exceeding `EXPONENT_MAX - exponent` the second loop runs to
completion: its guard fails on the final state. -/
theorem normLoop2_exit_cond (f : Nat) : ∀ (m : Nat) (e : Int),
    (EXPONENT_MAX - e).toNat < f →
    ¬(MANTISSA_MAX < (normLoop2 f (m, e)).1 ∧ (normLoop2 f (m, e)).2 < EXPONENT_MAX) := by
  induction f with
  | zero => intro m e hf; omega
  | succ f ih =>
    intro m e hf
    by_cases hc : MANTISSA_MAX < m ∧ e < EXPONENT_MAX
    · have hstep : normLoop2 (f + 1) (m, e) = normLoop2 f (m / 10, e + 1) := by
        simp [normLoop2, hc]
      rw [hstep]
      refine ih (m / 10) (e + 1) ?_
      have := hc.2
      omega
    · simp only [normLoop2, if_neg hc]
      exact hc

/-- The second loop only increases the exponent. -/
theorem normLoop2_e_ge (f : Nat) : ∀ (m : Nat) (e : Int), e ≤ (normLoop2 f (m, e)).2 := by
  induction f with
  | zero => intro m e; exact le_refl e
  | succ f ih =>
    intro m e
    by_cases hc : MANTISSA_MAX < m ∧ e < EXPONENT_MAX
    · have hstep : normLoop2 (f + 1) (m, e) = normLoop2 f (m / 10, e + 1) := by
        simp [normLoop2, hc]
      rw [hstep]
      have := ih (m / 10) (e + 1)
      omega
    · simp [normLoop2, hc]

/-- The second loop never raises the exponent above `EXPONENT_MAX`. -/
theorem normLoop2_e_le_max (f : Nat) : ∀ (m : Nat) (e : Int), e ≤ EXPONENT_MAX →
    (normLoop2 f (m, e)).2 ≤ EXPONENT_MAX := by
  induction f with
  | zero => intro m e he; exact he
  | succ f ih =>
    intro m e he
    by_cases hc : MANTISSA_MAX < m ∧ e < EXPONENT_MAX
    · have hstep : normLoop2 (f + 1) (m, e) = normLoop2 f (m / 10, e + 1) := by
        simp [normLoop2, hc]
      rw [hstep]
      exact ih (m / 10) (e + 1) (by omega)
    · simp [normLoop2, hc]
      omega

/-- C7 -- Range characterization of `from_mantissa_exponent` over `i64`
mantissas and `i8` exponents.  It returns the `OutOfRange` error exactly
when the mantissa is `i64::MIN` (negation would overflow) or the value's
magnitude is at least `(MANTISSA_MAX + 1) * 10 ^ EXPONENT_MAX` — stated as
`10 ^ 224 ≤ |m| * 10 ^ (e + 128)` — i.e. exactly when the value cannot be
brought, by the truncating scaling loops, to a mantissa of at most
`MANTISSA_MAX` with exponent at most `80`.  When instead the magnitude
underflows below `MANTISSA_MIN * 10 ^ EXPONENT_MIN` — stated as
`|m| * 10 ^ (e + 128) < 10 ^ 47` — it succeeds with the canonical zero
rather than returning an error. -/
theorem from_mantissa_exponent_range_characterization (m e : Int)
    (hm1 : -(2 ^ 63) ≤ m) (hm2 : m < 2 ^ 63) (he1 : -128 ≤ e) (he2 : e ≤ 127) :
    (isOutOfRange (IssuedValue.from_mantissa_exponent m e) = true ↔
      (m = -(2 ^ 63) ∨ 10 ^ 224 ≤ m.natAbs * 10 ^ (e + 128).toNat)) ∧
    (m ≠ -(2 ^ 63) → m.natAbs * 10 ^ (e + 128).toNat < 10 ^ 47 →
      IssuedValue.from_mantissa_exponent m e = .ok IssuedValue.zero) := by
  by_cases h0 : m = 0
  · subst h0
    have hz : IssuedValue.from_mantissa_exponent 0 e = .ok IssuedValue.zero := rfl
    constructor
    · rw [hz]
      constructor
      · intro habs
        exact absurd habs (by decide)
      · intro h
        rcases h with h | h
        · exact absurd h (by decide)
        · simp at h
    · intro _ _
      exact hz
  by_cases hmin : m = -(2 ^ 63)
  · constructor
    · constructor
      · intro _
        exact Or.inl hmin
      · intro _
        unfold IssuedValue.from_mantissa_exponent IssuedValue.normalize
        rw [if_neg (by simpa using h0), if_pos (by simpa using hmin)]
        rfl
    · intro hne _
      exact absurd hmin hne
  -- main case: nonzero mantissa, not i64::MIN
  have ha0 : m.natAbs ≠ 0 := by omega
  rcases h1 : normLoop1 normFuel (m.natAbs, e) with ⟨a1, e1⟩
  rcases h2 : normLoop2 normFuel (a1, e1) with ⟨a2, e2⟩
  have hnf : normFuel = 400 := rfl
  have hEmin : EXPONENT_MIN = -96 := rfl
  have hEmax : EXPONENT_MAX = 80 := rfl
  have hMmin : MANTISSA_MIN = 1000000000000000 := rfl
  have hMmax : MANTISSA_MAX = 9999999999999999 := rfl
  -- loop-1 facts
  have hexit1 : ¬(a1 < MANTISSA_MIN ∧ EXPONENT_MIN < e1) := by
    have := normLoop1_exit_cond normFuel m.natAbs e (by omega)
    rw [h1] at this
    exact this
  have hwv1 : wval (a1, e1) = wval (m.natAbs, e) := by
    have := normLoop1_wval normFuel m.natAbs e he1
    rw [h1] at this
    exact this
  have he1le : e1 ≤ e := by
    have := normLoop1_e_le normFuel m.natAbs e
    rw [h1] at this
    exact this
  have he1lb : -128 ≤ e1 := by
    have := normLoop1_e_lb normFuel m.natAbs e he1
    rw [h1] at this
    exact this
  -- loop-2 facts
  have hexit2 : ¬(MANTISSA_MAX < a2 ∧ e2 < EXPONENT_MAX) := by
    have := normLoop2_exit_cond normFuel a1 e1 (by omega)
    rw [h2] at this
    exact this
  have hwv2 : wval (a2, e2) ≤ wval (a1, e1) := by
    have := normLoop2_wval_le normFuel a1 e1 he1lb
    rw [h2] at this
    exact this
  have hsucc : (a1 + 1) * 10 ^ (e1 + 128).toNat ≤ (a2 + 1) * 10 ^ (e2 + 128).toNat := by
    have := normLoop2_succ_bound normFuel a1 e1 he1lb
    rw [h2] at this
    exact this
  have he2ge : e1 ≤ e2 := by
    have := normLoop2_e_ge normFuel a1 e1
    rw [h2] at this
    exact this
  -- the normalized result in terms of the final state
  have hnorm : IssuedValue.from_mantissa_exponent m e =
      (if MANTISSA_MAX < a2 ∨ EXPONENT_MAX < e2 then
        .error (.OutOfRange "Issued value too big to be normalized")
      else if a2 < MANTISSA_MIN ∨ e2 < EXPONENT_MIN then
        .ok IssuedValue.zero
      else
        .ok ⟨if m < 0 then -(a2 : Int) else (a2 : Int), e2⟩) := by
    unfold IssuedValue.from_mantissa_exponent IssuedValue.normalize
    rw [if_neg (by simpa using h0), if_neg (by simpa using hmin)]
    dsimp only
    rw [h1, h2]
  -- the error guard holds exactly when the weighted magnitude reaches 10^224
  have hchar : (MANTISSA_MAX < a2 ∨ EXPONENT_MAX < e2) ↔
      10 ^ 224 ≤ m.natAbs * 10 ^ (e + 128).toNat := by
    have hV : m.natAbs * 10 ^ (e + 128).toNat = wval (m.natAbs, e) := rfl
    constructor
    · intro hguard
      rcases hguard with hbig | hexp
      · have he280 : EXPONENT_MAX ≤ e2 := by
          by_contra hlt
          exact hexit2 ⟨hbig, by omega⟩
        have hbound : (10 : Nat) ^ 16 * 10 ^ 208 ≤ wval (a2, e2) := by
          unfold wval
          have hp : (10 : Nat) ^ 208 ≤ 10 ^ (e2 + 128).toNat :=
            Nat.pow_le_pow_right (by norm_num) (by omega)
          calc (10 : Nat) ^ 16 * 10 ^ 208 ≤ (10 : Nat) ^ 16 * 10 ^ (e2 + 128).toNat :=
                Nat.mul_le_mul_left _ hp
            _ ≤ a2 * 10 ^ (e2 + 128).toNat :=
                Nat.mul_le_mul_right _ (by omega)
        rw [hV, ← hwv1]
        calc (10 : Nat) ^ 224 = 10 ^ 16 * 10 ^ 208 := by norm_num [← pow_add]
          _ ≤ wval (a2, e2) := hbound
          _ ≤ wval (a1, e1) := hwv2
      · -- the second loop cannot raise the exponent above the maximum, so it
        -- never ran: the state after loop 1 already had e1 > 80
        have he180 : EXPONENT_MAX < e1 := by
          by_contra hle
          have := normLoop2_e_le_max normFuel a1 e1 (by omega)
          rw [h2] at this
          omega
        have hnorun : normLoop2 normFuel (a1, e1) = (a1, e1) :=
          normLoop2_exit normFuel a1 e1 (by omega)
        have hpair : (a2, e2) = (a1, e1) := h2.symm.trans hnorun
        injection hpair with ha2eq he2eq
        subst ha2eq
        subst he2eq
        have ha2min : MANTISSA_MIN ≤ a2 := by
          by_contra hlt
          exact hexit1 ⟨by omega, by omega⟩
        rw [hV, ← hwv1]
        unfold wval
        have hp : (10 : Nat) ^ 209 ≤ 10 ^ (e2 + 128).toNat :=
          Nat.pow_le_pow_right (by norm_num) (by omega)
        calc (10 : Nat) ^ 224 = 10 ^ 15 * 10 ^ 209 := by norm_num [← pow_add]
          _ ≤ 10 ^ 15 * 10 ^ (e2 + 128).toNat := Nat.mul_le_mul_left _ hp
          _ ≤ a2 * 10 ^ (e2 + 128).toNat := Nat.mul_le_mul_right _ (by omega)
    · intro hge
      by_contra hguard
      push_neg at hguard
      have hlt : wval (m.natAbs, e) < 10 ^ 224 := by
        rw [← hwv1]
        have hstep1 : wval (a1, e1) < (a1 + 1) * 10 ^ (e1 + 128).toNat := by
          unfold wval
          have hX : 0 < (10 : Nat) ^ (e1 + 128).toNat := Nat.pos_pow_of_pos _ (by norm_num)
          exact (Nat.mul_lt_mul_right hX).mpr (by omega)
        have hstep3 : (a2 + 1) * 10 ^ (e2 + 128).toNat ≤ 10 ^ 16 * 10 ^ 208 := by
          have hp : (10 : Nat) ^ (e2 + 128).toNat ≤ 10 ^ 208 :=
            Nat.pow_le_pow_right (by norm_num) (by omega)
          calc (a2 + 1) * 10 ^ (e2 + 128).toNat ≤ 10 ^ 16 * 10 ^ (e2 + 128).toNat :=
                Nat.mul_le_mul_right _ (by omega)
            _ ≤ 10 ^ 16 * 10 ^ 208 := Nat.mul_le_mul_left _ hp
        calc wval (a1, e1) < (a1 + 1) * 10 ^ (e1 + 128).toNat := hstep1
          _ ≤ (a2 + 1) * 10 ^ (e2 + 128).toNat := hsucc
          _ ≤ 10 ^ 16 * 10 ^ 208 := hstep3
          _ = 10 ^ 224 := by norm_num [← pow_add]
      have hV : m.natAbs * 10 ^ (e + 128).toNat = wval (m.natAbs, e) := rfl
      omega
  constructor
  · rw [hnorm]
    by_cases hguard : MANTISSA_MAX < a2 ∨ EXPONENT_MAX < e2
    · rw [if_pos hguard]
      simp only [isOutOfRange]
      constructor
      · intro _
        exact Or.inr (hchar.mp hguard)
      · intro _
        trivial
    · rw [if_neg hguard]
      constructor
      · intro habs
        split_ifs at habs <;> simp [isOutOfRange] at habs
      · intro h
        rcases h with h | h
        · exact absurd h hmin
        · exact absurd (hchar.mpr h) hguard
  · intro _ hsmall
    have hnoguard : ¬(MANTISSA_MAX < a2 ∨ EXPONENT_MAX < e2) := by
      intro hguard
      have := hchar.mp hguard
      omega
    have hzero : a2 < MANTISSA_MIN ∨ e2 < EXPONENT_MIN := by
      by_contra hnz
      push_neg at hnz
      have hge : (10 : Nat) ^ 47 ≤ wval (a2, e2) := by
        unfold wval
        have hp : (10 : Nat) ^ 32 ≤ 10 ^ (e2 + 128).toNat :=
          Nat.pow_le_pow_right (by norm_num) (by omega)
        calc (10 : Nat) ^ 47 = 10 ^ 15 * 10 ^ 32 := by norm_num [← pow_add]
          _ ≤ 10 ^ 15 * 10 ^ (e2 + 128).toNat := Nat.mul_le_mul_left _ hp
          _ ≤ a2 * 10 ^ (e2 + 128).toNat := Nat.mul_le_mul_right _ (by omega)
      have hVlt : wval (m.natAbs, e) < 10 ^ 47 := hsmall
      have : wval (a2, e2) ≤ wval (m.natAbs, e) := hwv1 ▸ hwv2
      omega
    rw [hnorm, if_neg hnoguard, if_pos hzero]

/-- Witness for C7: mantissa `1` with exponent `-110` underflows and
normalizes to the canonical zero; mantissa `10^15` with exponent `81` is too
large and fails with `OutOfRange`. -/
theorem from_mantissa_exponent_range_characterization_witness :
    IssuedValue.from_mantissa_exponent 1 (-110) = .ok IssuedValue.zero ∧
    isOutOfRange (IssuedValue.from_mantissa_exponent 1000000000000000 81) = true :=
  ⟨(from_mantissa_exponent_range_characterization 1 (-110) (by norm_num) (by norm_num)
      (by norm_num) (by norm_num)).2 (by norm_num) (by decide),
   (from_mantissa_exponent_range_characterization 1000000000000000 81 (by norm_num)
      (by norm_num) (by norm_num) (by norm_num)).1.mpr (Or.inr (by decide))⟩
